import Mathlib

/-!
Shallow embedding of the motorcycle endless-runner simulation core
(`game/game.js`): game configuration, session state, the per-frame
`update` pipeline (day/night cycle, scoring, difficulty, vehicle
physics, obstacle advection, spawning, particles, collision
resolution), the session reset `startGame`, and the input handlers.

JavaScript numbers are modelled as exact rationals (ℚ); the values the
simulation manipulates (multiples of 0.5, 0.1, 0.01, sprite-scaled
integers) stay in exact range. `Math.random()` draws are modelled as
environment-supplied rationals in [0, 1). Object identity of obstacles
(used by the mount reference) is modelled by an id assigned at spawn
time from a session counter.
-/

namespace MotoGame

/-- Configuration constants from the `CONFIG` object in `game.js`. -/
def INITIAL_SPEED : ℚ := 6
def SPEED_INCREMENT : ℚ := 0.5
def SPEED_INCREASE_INTERVAL : ℕ := 300
def OBSTACLE_MIN_INTERVAL : ℚ := 60
def OBSTACLE_MAX_INTERVAL : ℚ := 120
def OBSTACLE_INTERVAL_DECREASE_RATE : ℚ := 0.5
def OBSTACLE_MIN_INTERVAL_CAP : ℚ := 40
def FLYING_OBSTACLE_MIN_INTERVAL : ℚ := 100
def FLYING_OBSTACLE_MAX_INTERVAL : ℚ := 200
def FLYING_OBSTACLE_MIN_SCORE : ℤ := 100
def VEHICLE_POINTS : ℤ := 50
def RIDEABLE_VEHICLE_POINTS : ℤ := 100
def RIDEABLE_VEHICLE_MIN_SCORE : ℤ := 300
def FLYING_OBSTACLE_POINTS : ℤ := 75
def FLYING_OBSTACLE_SPEED_MULTIPLIER : ℚ := 1.2
def SPRITE_SCALE : ℚ := 3
def PARTICLE_SPAWN_INTERVAL : ℕ := 5
def COLLISION_FLASH_DURATION : ℤ := 10
def BIRD_WING_FLAP_FRAME_INTERVAL : ℕ := 10
def HITBOX_SIZE_RATIO : ℚ := 0.7
def SAFE_DISTANCE_BIRD_VEHICLE : ℚ := 300
def OBSTACLE_RETRY_DELAY : ℚ := 20
def GROUND_INTERVAL_MIN_SPACING : ℚ := 30
def FLYING_INTERVAL_MIN_CAP : ℚ := 60
def FLYING_INTERVAL_MIN_SPACING : ℚ := 50
def SKY_TRANSITION_SPEED : ℚ := 0.01
def SUN_MOON_SPEED : ℚ := 0.5
def SUN_START_X : ℚ := 100

/-- Modelled from the spec: the canvas element lives in `index.html`, which is
not among the provided sources; the spec's scenario in section 8 fixes
`canvas.width = 800`. A 2:1 canvas (height 400) is assumed; every claim
checked here is insensitive to the height, which only shifts all vertical
coordinates uniformly. -/
def canvasWidth : ℚ := 800

/-- Modelled from the spec: canvas height (see `canvasWidth`). -/
def canvasHeight : ℚ := 400

/-- Ground (road) line: `canvas.height - 80` in `game.js`. -/
def groundLineY : ℚ := canvasHeight - 80

/-- The motorcycle's resting y: `canvas.height - 140` (field `groundY`). -/
def motoGroundY : ℚ := canvasHeight - 140

/-- Fixed motorcycle fields from the `motorcycle` object literal. -/
def motoX : ℚ := 50
def motoGravity : ℚ := 0.8
def motoJumpPower : ℚ := -15
def motoDuckHeight : ℚ := 40
def motoNormalHeight : ℚ := 60

/-- The state machine's three states (`GAME_STATES`). -/
inductive GState where
  | waiting
  | playing
  | gameOver
  deriving DecidableEq, Repr

/-- Sprite identifiers of the ground obstacle archetypes. -/
inductive SpriteId where
  | car
  | truck
  | van
  | bus
  | semiTruck
  deriving DecidableEq, Repr

/-- A ground obstacle (vehicle), as pushed by `spawnObstacle`. The `id`
field models JavaScript object identity (the mount holds a reference). -/
structure Obstacle where
  id : ℕ
  x : ℚ
  y : ℚ
  width : ℚ
  height : ℚ
  sprite : SpriteId
  rideable : Bool
  deriving DecidableEq, Repr

/-- A flying obstacle (bird), as pushed by `spawnObstacle`. -/
structure FlyingObstacle where
  x : ℚ
  y : ℚ
  width : ℚ
  height : ℚ
  wingFrame : ℕ
  deriving DecidableEq, Repr

/-- A dust particle (class `Particle`; the constant `size` field is omitted,
it is only used for drawing). -/
structure Particle where
  x : ℚ
  y : ℚ
  vx : ℚ
  vy : ℚ
  life : ℤ
  maxLife : ℤ
  deriving DecidableEq, Repr

/-- A background star (created by `initializeStars`). -/
structure Star where
  x : ℚ
  y : ℚ
  size : ℚ
  speed : ℚ
  opacity : ℚ
  deriving DecidableEq, Repr

/-- The mutable fields of the `motorcycle` object. -/
structure Motorcycle where
  y : ℚ
  height : ℚ
  velocityY : ℚ
  isJumping : Bool
  isDucking : Bool
  isRidingVehicle : Bool
  ridingVehicle : Option ℕ
  deriving DecidableEq, Repr

/-- The whole mutable module-level state of `game.js` that the simulation
reads or writes: state machine, session counters, spawn schedule, the
motorcycle, both obstacle collections, particles, day/night visuals, the
tracked key state, and the persisted high score (`storedHighScore` mirrors
the `localStorage` slot; `nextId` is the model's obstacle-identity
counter). -/
structure GameState where
  gameState : GState
  score : ℤ
  highScore : ℤ
  storedHighScore : ℤ
  frameCount : ℕ
  gameSpeed : ℚ
  collisionFlash : ℤ
  landingAnimation : ℤ
  nextGroundObstacleFrame : ℚ
  nextFlyingObstacleFrame : ℚ
  groundObstacleInterval : ℚ
  flyingObstacleInterval : ℚ
  motorcycle : Motorcycle
  obstacles : List Obstacle
  flyingObstacles : List FlyingObstacle
  particles : List Particle
  sunX : ℚ
  isNightMode : Bool
  skyTransition : ℚ
  stars : List Star
  keyArrowDown : Bool
  isTouchDucking : Bool
  nextId : ℕ
  deriving DecidableEq, Repr

/-- Per-tick random draws, each modelling one `Math.random()` call in
`game.js` (a rational in [0, 1)); `newStars` stands for the fifty
random stars produced by `initializeStars` when night falls. -/
structure TickEnv where
  rGroundType : ℚ
  rGroundInterval : ℚ
  rFlyHeight : ℚ
  rFlyInterval : ℚ
  rDustVx : ℚ
  rDustVy : ℚ
  newStars : List Star
  deriving Repr

/-- The `Math.floor`-based adjusted minimum from `calculateSpawnInterval`:
`max(minCap, minInterval - speedFactor * DECREASE_RATE)` where
`speedFactor = floor(frameCount / SPEED_INCREASE_INTERVAL)`. -/
def adjustedMinInterval (frameCount : ℕ) (minInterval minCap : ℚ) : ℚ :=
  max minCap
    (minInterval - (frameCount / SPEED_INCREASE_INTERVAL : ℕ) * OBSTACLE_INTERVAL_DECREASE_RATE)

/-- The adjusted maximum from `calculateSpawnInterval`:
`max(adjustedMinInterval + minSpacing, maxInterval - speedFactor * DECREASE_RATE)`. -/
def adjustedMaxInterval (frameCount : ℕ) (minInterval maxInterval minCap minSpacing : ℚ) : ℚ :=
  max (adjustedMinInterval frameCount minInterval minCap + minSpacing)
    (maxInterval - (frameCount / SPEED_INCREASE_INTERVAL : ℕ) * OBSTACLE_INTERVAL_DECREASE_RATE)

/-- `calculateSpawnInterval` from `game.js`; `r` models the `Math.random()`
draw. Returns `r * (adjustedMax - adjustedMin) + adjustedMin`. -/
def calculateSpawnInterval
    (frameCount : ℕ) (minInterval maxInterval minCap minSpacing r : ℚ) : ℚ :=
  r * (adjustedMaxInterval frameCount minInterval maxInterval minCap minSpacing
        - adjustedMinInterval frameCount minInterval minCap)
    + adjustedMinInterval frameCount minInterval minCap

/-- A scaled sprite bounding box (`getSpriteDimensions` output). -/
structure Dims where
  width : ℚ
  height : ℚ
  deriving DecidableEq, Repr

/-- Modelled from the spec: the sprite pixel grids live in `sprites.js`,
which is not among the provided sources. `README.md` documents a 20x16
pixel motorcycle drawn at 3x scale (60x48 effective); the spec fixes only
that each archetype has fixed dimensions derived from its sprite. -/
def normalDims : Dims := { width := 60, height := 48 }

/-- Modelled from the spec: the ducking pose is lower than the normal pose
(sprite data not in the provided sources); 20x12 pixels at 3x scale. -/
def duckDims : Dims := { width := 60, height := 36 }

/-- An obstacle archetype row of `obstacleTypes` in `game.js`. -/
structure ObstacleType where
  sprite : SpriteId
  width : ℚ
  height : ℚ
  rideable : Bool
  deriving DecidableEq, Repr

/-- Modelled from the spec: vehicle sprite grids are in the missing
`sprites.js`; the spec fixes only the archetype list (CAR/TRUCK/VAN
non-rideable, BUS/SEMI_TRUCK rideable) with fixed per-archetype
dimensions. Plausible scaled dimensions are used; the theorems that
depend on them numerically only use that every archetype is at least
23 units tall and 1 unit wide. -/
def obstacleTypes : List ObstacleType :=
  [ { sprite := .car, width := 120, height := 45, rideable := false },
    { sprite := .truck, width := 135, height := 51, rideable := false },
    { sprite := .van, width := 126, height := 48, rideable := false },
    { sprite := .bus, width := 150, height := 54, rideable := true },
    { sprite := .semiTruck, width := 180, height := 60, rideable := true } ]

/-- Modelled from the spec: the bird sprite box (`flyingObstacleConfig`
spreads `getSpriteDimensions(SPRITES.BIRD_UP)`; sprite data missing). -/
def birdDims : Dims := { width := 45, height := 30 }

/-- The three discrete bird heights relative to the ground line
(`flyingObstacleConfig.heightVariations`). -/
def heightVariations : List ℚ := [-100, -120, -140]

/-- An axis-aligned rectangle, as consumed by `checkAABBCollision`. -/
structure Rect where
  x : ℚ
  y : ℚ
  width : ℚ
  height : ℚ
  deriving DecidableEq, Repr

/-- `checkAABBCollision` from `game.js` (strict inequalities on all four
sides). -/
def checkAABBCollision (rect1 rect2 : Rect) : Bool :=
  rect1.x < rect2.x + rect2.width &&
  rect1.x + rect1.width > rect2.x &&
  rect1.y < rect2.y + rect2.height &&
  rect1.y + rect1.height > rect2.y

/-- A hitbox relative to a sprite box (`calculateHitbox` output). -/
structure Hitbox where
  width : ℚ
  height : ℚ
  offsetX : ℚ
  offsetY : ℚ
  deriving DecidableEq, Repr

/-- `calculateHitbox` from `game.js`, with explicit custom offsets (the only
call sites pass both offsets explicitly). -/
def calculateHitbox (spriteDims : Dims) (sizeRatio offsetX offsetY : ℚ) : Hitbox :=
  { width := spriteDims.width * sizeRatio,
    height := spriteDims.height * sizeRatio,
    offsetX := offsetX,
    offsetY := offsetY }

/-- `normalHitbox` constant: `calculateHitbox(normalDims, 0.7, 1, 4)`. -/
def normalHitbox : Hitbox := calculateHitbox normalDims HITBOX_SIZE_RATIO 1 4

/-- `duckHitbox` constant: `calculateHitbox(duckDims, 0.7, 1, 3)`. -/
def duckHitbox : Hitbox := calculateHitbox duckDims HITBOX_SIZE_RATIO 1 3

/-- `getMotorcycleHitbox` from `game.js`: the duck hitbox while ducking,
otherwise the normal hitbox, translated to the motorcycle's position. -/
def getMotorcycleHitbox (m : Motorcycle) : Rect :=
  let hitbox := if m.isDucking then duckHitbox else normalHitbox
  { x := motoX + hitbox.offsetX,
    y := m.y + hitbox.offsetY,
    width := hitbox.width,
    height := hitbox.height }

/-- The bounding rectangle of a ground obstacle (obstacles collide with
their full box). -/
def obstacleRect (o : Obstacle) : Rect :=
  { x := o.x, y := o.y, width := o.width, height := o.height }

/-- The bounding rectangle of a flying obstacle. -/
def flyingRect (o : FlyingObstacle) : Rect :=
  { x := o.x, y := o.y, width := o.width, height := o.height }

/-- `getRandomElement` from `game.js`:
`array[Math.floor(Math.random() * array.length)]`, with `r` the random
draw; `dflt` is returned for an out-of-range index (in `game.js` this
cannot happen because `r` is in [0, 1)). -/
def getRandomElement (l : List α) (r : ℚ) (dflt : α) : α :=
  l.getD (Int.toNat ⌊r * l.length⌋) dflt

/-- `isObstacleTooClose` applied to the ground-obstacle array: the last
spawned one is within `SAFE_DISTANCE_BIRD_VEHICLE` of the right edge. -/
def isObstacleTooCloseGround (l : List Obstacle) : Bool :=
  match l.getLast? with
  | none => false
  | some lastObstacle => canvasWidth - lastObstacle.x < SAFE_DISTANCE_BIRD_VEHICLE

/-- `isObstacleTooClose` applied to the flying-obstacle array. -/
def isObstacleTooCloseFlying (l : List FlyingObstacle) : Bool :=
  match l.getLast? with
  | none => false
  | some lastObstacle => canvasWidth - lastObstacle.x < SAFE_DISTANCE_BIRD_VEHICLE

/-- `performJump` from `game.js`: from a non-jumping, non-ducking pose,
apply the jump impulse and leave any riding state. -/
def performJump (s : GameState) : GameState :=
  if !s.motorcycle.isJumping && !s.motorcycle.isDucking then
    { s with motorcycle :=
        { s.motorcycle with
            velocityY := motoJumpPower,
            isJumping := true,
            isRidingVehicle := false,
            ridingVehicle :=
              if s.motorcycle.isRidingVehicle then none else s.motorcycle.ridingVehicle } }
  else s

/-- `startGame` from `game.js`. The `landscape` flag models the
`checkOrientation()` guard (a DOM query): when the orientation check
fails, `startGame` returns early, and `checkOrientation` itself forces
Playing back to Waiting; when it succeeds, every mutable session field
is reset and play begins. -/
def startGame (landscape : Bool) (s : GameState) : GameState :=
  if !landscape then
    if s.gameState = GState.playing then { s with gameState := GState.waiting } else s
  else
    { s with
        gameState := GState.playing,
        score := 0,
        frameCount := 0,
        sunX := canvasWidth - SUN_START_X,
        isNightMode := false,
        skyTransition := 0,
        stars := [],
        gameSpeed := INITIAL_SPEED,
        obstacles := [],
        flyingObstacles := [],
        particles := [],
        collisionFlash := 0,
        landingAnimation := 0,
        motorcycle :=
          { y := motoGroundY,
            height := motoNormalHeight,
            velocityY := 0,
            isJumping := false,
            isDucking := false,
            isRidingVehicle := false,
            ridingVehicle := none },
        nextGroundObstacleFrame := OBSTACLE_MAX_INTERVAL,
        nextFlyingObstacleFrame := FLYING_OBSTACLE_MAX_INTERVAL + (FLYING_OBSTACLE_MIN_SCORE : ℚ),
        groundObstacleInterval := OBSTACLE_MAX_INTERVAL,
        flyingObstacleInterval := FLYING_OBSTACLE_MAX_INTERVAL }

/-- Key codes the `keydown`/`keyup` handlers inspect. -/
inductive KeyCode where
  | space
  | arrowUp
  | arrowDown
  | other
  deriving DecidableEq, Repr

/-- The `keydown` handler: record the key, start from Waiting on Space,
and (sequentially, on the state possibly just mutated by `startGame`)
jump while Playing on Space or ArrowUp. -/
def handleKeydown (landscape : Bool) (code : KeyCode) (s : GameState) : GameState :=
  let s := if code = KeyCode.arrowDown then { s with keyArrowDown := true } else s
  let s := if s.gameState = GState.waiting && code = KeyCode.space then startGame landscape s else s
  if s.gameState = GState.playing && (code = KeyCode.space || code = KeyCode.arrowUp) then
    performJump s
  else s

/-- The `keyup` handler: clear the recorded key. -/
def handleKeyup (code : KeyCode) (s : GameState) : GameState :=
  if code = KeyCode.arrowDown then { s with keyArrowDown := false } else s

/-- The `touchstart` handler: start from Waiting; while Playing, a
bottom-half touch holds duck (sets the ArrowDown key unless jumping) and
a top-half touch jumps. -/
def handleTouchstart (landscape bottomHalf : Bool) (s : GameState) : GameState :=
  if s.gameState = GState.waiting then startGame landscape s
  else if s.gameState = GState.playing then
    if bottomHalf then
      if !s.motorcycle.isJumping then { s with isTouchDucking := true, keyArrowDown := true }
      else s
    else performJump s
  else s

/-- The `touchend` handler: release a held touch-duck. -/
def handleTouchend (s : GameState) : GameState :=
  if s.isTouchDucking then { s with keyArrowDown := false, isTouchDucking := false } else s

/-- The restart button's click handler: an unconditional `startGame()`. -/
def handleRestartClick (landscape : Bool) (s : GameState) : GameState :=
  startGame landscape s

/-- `gameOver` from `game.js`: enter the terminal state, arm the collision
flash, and raise (and persist) the high score only when the session score
strictly exceeds it. -/
def gameOverFn (s : GameState) : GameState :=
  { s with
      gameState := GState.gameOver,
      collisionFlash := COLLISION_FLASH_DURATION,
      highScore := if s.score > s.highScore then s.score else s.highScore,
      storedHighScore := if s.score > s.highScore then s.score else s.storedHighScore }

/-- The `frameCount++` step opening `update()`. -/
def incFrame (s : GameState) : GameState :=
  { s with frameCount := s.frameCount + 1 }

/-- The survival credit in `update()`: one point every five frames. -/
def scoreTick (s : GameState) : GameState :=
  if s.frameCount % 5 = 0 then { s with score := s.score + 1 } else s

/-- The difficulty step in `update()`: speed rises by `SPEED_INCREMENT`
every `SPEED_INCREASE_INTERVAL` frames. -/
def speedTick (s : GameState) : GameState :=
  if s.frameCount % SPEED_INCREASE_INTERVAL = 0 then
    { s with gameSpeed := s.gameSpeed + SPEED_INCREMENT }
  else s

/-- `updateStars` from `game.js`: at night, stars drift left at their own
speed and wrap around the right edge. -/
def updateStars (s : GameState) : GameState :=
  if !s.isNightMode then s
  else
    { s with stars := s.stars.map fun star =>
        let star := { star with x := star.x - star.speed }
        if star.x < -10 then { star with x := canvasWidth + 10 } else star }

/-- `updateDayNightCycle` from `game.js`: the sun/moon crosses the sky,
flipping day/night (and regenerating stars) at the left edge, while the
sky colour crossfades toward the current phase. -/
def updateDayNightCycle (env : TickEnv) (s : GameState) : GameState :=
  let s := { s with sunX := s.sunX - SUN_MOON_SPEED }
  let s :=
    if s.sunX ≤ SUN_START_X then
      let night := !s.isNightMode
      { s with
          isNightMode := night,
          stars := if night then env.newStars else s.stars,
          sunX := canvasWidth - SUN_START_X }
    else s
  let targetTransition : ℚ := if s.isNightMode then 1 else 0
  let s :=
    if s.skyTransition < targetTransition then
      { s with skyTransition := min (s.skyTransition + SKY_TRANSITION_SPEED) targetTransition }
    else if s.skyTransition > targetTransition then
      { s with skyTransition := max (s.skyTransition - SKY_TRANSITION_SPEED) targetTransition }
    else s
  updateStars s

/-- The mount-handling head of `updateMotorcycle`: while riding, either
fall off once the vehicle has scrolled past the motorcycle, or lock the
motorcycle a small clearance above the vehicle's roof. A dangling
reference (the ridden obstacle already removed from the collection) is
observed through the frozen JavaScript object, whose trailing edge is
necessarily past the left screen edge and hence past the motorcycle, so
it takes the fall-off branch. -/
def ridingPhase (s : GameState) : GameState :=
  match s.motorcycle.ridingVehicle with
  | none => s
  | some vid =>
    if s.motorcycle.isRidingVehicle then
      match s.obstacles.find? (fun o => o.id = vid) with
      | some vehicle =>
        if vehicle.x + vehicle.width < motoX then
          { s with motorcycle :=
              { s.motorcycle with
                  isRidingVehicle := false, ridingVehicle := none,
                  isJumping := true, velocityY := 0 } }
        else
          { s with motorcycle :=
              { s.motorcycle with y := vehicle.y - s.motorcycle.height - 5 } }
      | none =>
        { s with motorcycle :=
            { s.motorcycle with
                isRidingVehicle := false, ridingVehicle := none,
                isJumping := true, velocityY := 0 } }
    else s

/-- The duck/stand branch of `updateMotorcycle` (skipped entirely while
riding): holding ArrowDown on the ground ducks; otherwise the grounded
motorcycle stands at its normal height on the ground line. -/
def posePhase (s : GameState) : GameState :=
  if !s.motorcycle.isRidingVehicle && s.keyArrowDown && !s.motorcycle.isJumping then
    { s with motorcycle :=
        { s.motorcycle with
            isDucking := true,
            height := motoDuckHeight,
            y := motoGroundY + (motoNormalHeight - motoDuckHeight) } }
  else if !s.motorcycle.isJumping && !s.motorcycle.isRidingVehicle then
    { s with motorcycle :=
        { s.motorcycle with
            isDucking := false,
            height := motoNormalHeight,
            y := motoGroundY } }
  else s

/-- The gravity-integration branch of `updateMotorcycle`: while jumping,
integrate velocity and position, and on reaching the ground clamp,
dismount and arm the landing animation. -/
def gravityPhase (s : GameState) : GameState :=
  if s.motorcycle.isJumping then
    let velocityY := s.motorcycle.velocityY + motoGravity
    let y := s.motorcycle.y + velocityY
    if y ≥ motoGroundY then
      { s with
          motorcycle :=
            { s.motorcycle with
                y := motoGroundY, velocityY := 0, isJumping := false,
                isRidingVehicle := false, ridingVehicle := none },
          landingAnimation := 8 }
    else
      { s with motorcycle := { s.motorcycle with y := y, velocityY := velocityY } }
  else s

/-- The trailing landing-animation decrement of `updateMotorcycle`. -/
def landingPhase (s : GameState) : GameState :=
  if s.landingAnimation > 0 then { s with landingAnimation := s.landingAnimation - 1 } else s

/-- `updateMotorcycle` from `game.js`: mount handling, then pose handling,
then gravity integration, then the landing-animation counter, mutating
the motorcycle in that order. -/
def updateMotorcycle (s : GameState) : GameState :=
  landingPhase (gravityPhase (posePhase (ridingPhase s)))

/-- The score value of a passed ground obstacle. -/
def obstaclePassPoints (o : Obstacle) : ℤ :=
  if o.rideable then RIDEABLE_VEHICLE_POINTS else VEHICLE_POINTS

/-- `updateObstacles` from `game.js`: advect both collections left (ground
at `gameSpeed`, birds 1.2x faster with the wing-flap animation), removing
everything past the left edge and crediting its score value. -/
def updateObstacles (s : GameState) : GameState :=
  let movedGround := s.obstacles.map fun o => { o with x := o.x - s.gameSpeed }
  let keptGround := movedGround.filter fun o => !(o.x + o.width < 0)
  let goneGround := movedGround.filter fun o => o.x + o.width < 0
  let movedFlying := s.flyingObstacles.map fun o =>
    { o with
        x := o.x - s.gameSpeed * FLYING_OBSTACLE_SPEED_MULTIPLIER,
        wingFrame := (s.frameCount / BIRD_WING_FLAP_FRAME_INTERVAL) % 2 }
  let keptFlying := movedFlying.filter fun o => !(o.x + o.width < 0)
  let goneFlying := movedFlying.filter fun o => o.x + o.width < 0
  { s with
      obstacles := keptGround,
      flyingObstacles := keptFlying,
      score := s.score + (goneGround.map obstaclePassPoints).sum
        + goneFlying.length * FLYING_OBSTACLE_POINTS }

/-- The ground half of `spawnObstacle`: when due and not suppressed by a
recent bird, push a random archetype (rideable ones only above the score
threshold) at the right edge and draw the next interval; when suppressed,
retry after a short fixed delay. -/
def spawnGroundObstacle (env : TickEnv) (s : GameState) : GameState :=
  if (s.frameCount : ℚ) ≥ s.nextGroundObstacleFrame then
    if !isObstacleTooCloseFlying s.flyingObstacles then
      let availableTypes :=
        if s.score ≥ RIDEABLE_VEHICLE_MIN_SCORE then obstacleTypes
        else obstacleTypes.filter fun t => !t.rideable
      let obstacleType := getRandomElement availableTypes env.rGroundType
        { sprite := .car, width := 120, height := 45, rideable := false }
      let interval := calculateSpawnInterval s.frameCount
        OBSTACLE_MIN_INTERVAL OBSTACLE_MAX_INTERVAL
        OBSTACLE_MIN_INTERVAL_CAP GROUND_INTERVAL_MIN_SPACING env.rGroundInterval
      { s with
          obstacles := s.obstacles ++
            [ { id := s.nextId,
                x := canvasWidth,
                y := groundLineY - obstacleType.height,
                width := obstacleType.width,
                height := obstacleType.height,
                sprite := obstacleType.sprite,
                rideable := obstacleType.rideable } ],
          nextId := s.nextId + 1,
          groundObstacleInterval := interval,
          nextGroundObstacleFrame := (s.frameCount : ℚ) + interval }
    else
      { s with nextGroundObstacleFrame := (s.frameCount : ℚ) + OBSTACLE_RETRY_DELAY }
  else s

/-- The flying half of `spawnObstacle`: gated on the score threshold, and
suppressed by a recent ground obstacle with the same retry path. -/
def spawnFlyingObstacle (env : TickEnv) (s : GameState) : GameState :=
  if s.score > FLYING_OBSTACLE_MIN_SCORE && (s.frameCount : ℚ) ≥ s.nextFlyingObstacleFrame then
    if !isObstacleTooCloseGround s.obstacles then
      let yOffset := getRandomElement heightVariations env.rFlyHeight (-100)
      let interval := calculateSpawnInterval s.frameCount
        FLYING_OBSTACLE_MIN_INTERVAL FLYING_OBSTACLE_MAX_INTERVAL
        FLYING_INTERVAL_MIN_CAP FLYING_INTERVAL_MIN_SPACING env.rFlyInterval
      { s with
          flyingObstacles := s.flyingObstacles ++
            [ { x := canvasWidth,
                y := groundLineY + yOffset,
                width := birdDims.width,
                height := birdDims.height,
                wingFrame := 0 } ],
          flyingObstacleInterval := interval,
          nextFlyingObstacleFrame := (s.frameCount : ℚ) + interval }
    else
      { s with nextFlyingObstacleFrame := (s.frameCount : ℚ) + OBSTACLE_RETRY_DELAY }
  else s

/-- `spawnObstacle` from `game.js`: the ground attempt, then the flying
attempt against the just-updated ground collection. -/
def spawnObstacle (env : TickEnv) (s : GameState) : GameState :=
  spawnFlyingObstacle env (spawnGroundObstacle env s)

/-- `spawnDustParticle` from `game.js`: every five frames on the ground,
emit a dust particle behind the wheel with slightly randomised velocity. -/
def spawnDustParticle (env : TickEnv) (s : GameState) : GameState :=
  if s.frameCount % PARTICLE_SPAWN_INTERVAL = 0 && !s.motorcycle.isJumping then
    { s with particles := s.particles ++
        [ { x := motoX + 10,
            y := groundLineY + 5,
            vx := -2 - env.rDustVx * 2,
            vy := -1 - env.rDustVy * 2,
            life := 20,
            maxLife := 20 } ] }
  else s

/-- One `Particle.update()` call: advect, apply particle gravity, age. -/
def particleStep (p : Particle) : Particle :=
  { p with x := p.x + p.vx, y := p.y + p.vy, vy := p.vy + 0.1, life := p.life - 1 }

/-- `updateParticles` from `game.js`: step every particle and drop the
expired ones. -/
def updateParticles (s : GameState) : GameState :=
  { s with particles := (s.particles.map particleStep).filter fun p => p.life > 0 }

/-- The landing-on-top predicate of `checkCollisions`: falling, with the
hitbox horizontally overlapping the obstacle and the hitbox bottom within
the [-5, +10] tolerance band around the obstacle's top edge. -/
def landingOnTop (motorHitbox : Rect) (m : Motorcycle) (o : Obstacle) : Bool :=
  m.isJumping && m.velocityY > 0 &&
  motorHitbox.x + motorHitbox.width > o.x &&
  motorHitbox.x < o.x + o.width &&
  motorHitbox.y + motorHitbox.height ≤ o.y + 10 &&
  motorHitbox.y + motorHitbox.height ≥ o.y - 5

/-- The mount action of `checkCollisions`: remember the obstacle and stop
falling. -/
def mountVehicle (s : GameState) (o : Obstacle) : GameState :=
  { s with motorcycle :=
      { s.motorcycle with
          isRidingVehicle := true,
          ridingVehicle := some o.id,
          isJumping := false,
          velocityY := 0 } }

/-- The ground-obstacle loop of `checkCollisions`: for each vehicle in
order, try the landing-on-top mount first (skipping the standard test for
that obstacle), otherwise run the AABB test unless currently riding; a
hit calls `gameOver` and exits the whole check (the returned flag). -/
def checkGroundList (motorHitbox : Rect) (s : GameState) :
    List Obstacle → GameState × Bool
  | [] => (s, false)
  | o :: rest =>
    if o.rideable && landingOnTop motorHitbox s.motorcycle o then
      checkGroundList motorHitbox (mountVehicle s o) rest
    else if !s.motorcycle.isRidingVehicle && checkAABBCollision motorHitbox (obstacleRect o) then
      (gameOverFn s, true)
    else
      checkGroundList motorHitbox s rest

/-- The flying-obstacle loop of `checkCollisions`: an unconditional AABB
test; the first hit calls `gameOver` and exits. -/
def checkFlyingList (motorHitbox : Rect) (s : GameState) :
    List FlyingObstacle → GameState
  | [] => s
  | o :: rest =>
    if checkAABBCollision motorHitbox (flyingRect o) then gameOverFn s
    else checkFlyingList motorHitbox s rest

/-- `checkCollisions` from `game.js`: compute the hitbox once, walk the
ground obstacles (with mount priority), then — unless the ground walk
already ended the game — walk the flying obstacles. -/
def checkCollisions (s : GameState) : GameState :=
  let motorHitbox := getMotorcycleHitbox s.motorcycle
  let result := checkGroundList motorHitbox s s.obstacles
  if result.2 then result.1
  else checkFlyingList motorHitbox result.1 result.1.flyingObstacles

/-- `update` from `game.js`: a no-op outside Playing; otherwise the fixed
per-tick phase sequence. -/
def update (env : TickEnv) (s : GameState) : GameState :=
  if s.gameState ≠ GState.playing then s
  else
    checkCollisions
      (updateParticles
        (spawnDustParticle env
          (spawnObstacle env
            (updateObstacles
              (updateMotorcycle
                (speedTick
                  (scoreTick
                    (updateDayNightCycle env
                      (incFrame s)))))))))

/-- A model of the JavaScript `parseInt` builtin on its default radix, as
far as the high-score slot needs it: skip leading whitespace, accept an
optional sign, and read a leading decimal digit run; `none` models `NaN`
(no leading digits at all). -/
def jsParseInt (str : String) : Option ℤ :=
  let cs := str.toList.dropWhile (fun c => c.isWhitespace)
  let signed : ℤ × List Char :=
    match cs with
    | '-' :: t => (-1, t)
    | '+' :: t => (1, t)
    | _ => (1, cs)
  let ds := signed.2.takeWhile (fun c => c.isDigit)
  if ds.isEmpty then none
  else some (signed.1 * (ds.foldl (fun a c => a * 10 + (c.toNat - 48)) 0 : ℕ))

/-- The startup read `parseInt(localStorage.getItem('motorcycleHighScore')) || 0`:
a missing slot or a `NaN` parse (and a parsed 0) all yield 0. -/
def readHighScore (slot : Option String) : ℤ :=
  match slot with
  | none => 0
  | some str => (jsParseInt str).getD 0

/-- The module-level initial values of `game.js` (before any session), with
the high score read from the persisted slot. -/
def initialState (slot : Option String) : GameState :=
  { gameState := GState.waiting,
    score := 0,
    highScore := readHighScore slot,
    storedHighScore := readHighScore slot,
    frameCount := 0,
    gameSpeed := INITIAL_SPEED,
    collisionFlash := 0,
    landingAnimation := 0,
    nextGroundObstacleFrame := 0,
    nextFlyingObstacleFrame := 0,
    groundObstacleInterval := OBSTACLE_MAX_INTERVAL,
    flyingObstacleInterval := FLYING_OBSTACLE_MAX_INTERVAL,
    motorcycle :=
      { y := motoGroundY,
        height := motoNormalHeight,
        velocityY := 0,
        isJumping := false,
        isDucking := false,
        isRidingVehicle := false,
        ridingVehicle := none },
    obstacles := [],
    flyingObstacles := [],
    particles := [],
    sunX := SUN_START_X,
    isNightMode := false,
    skyTransition := 0,
    stars := [],
    keyArrowDown := false,
    isTouchDucking := false,
    nextId := 0 }

/-- A concrete random environment with every draw at 0 and no star batch:
the least obstacle archetype and the minimum of every interval window. -/
def env0 : TickEnv :=
  { rGroundType := 0, rGroundInterval := 0, rFlyHeight := 0, rFlyInterval := 0,
    rDustVx := 0, rDustVy := 0, newStars := [] }

/-- A freshly started session with an empty persisted high score. -/
def freshStart : GameState := startGame true (initialState none)

/-- `n` input-free ticks (every draw 0) from an arbitrary state. -/
def runFrom (s : GameState) (n : ℕ) : GameState :=
  Nat.rec s (fun _ t => update env0 t) n

/-- `n` input-free ticks (every draw 0) from the fresh session. -/
def runNoInput (n : ℕ) : GameState :=
  runFrom freshStart n

/-- The input-free run after 100 ticks, written out (used as an
evaluation checkpoint): still Playing at score 20 and speed 6, with the
first ground obstacle due at frame 120 and four live dust particles. -/
def checkpoint100 : GameState :=
  { gameState := GState.playing,
    score := 20,
    highScore := 0,
    storedHighScore := 0,
    frameCount := 100,
    gameSpeed := 6,
    collisionFlash := 0,
    landingAnimation := 0,
    nextGroundObstacleFrame := 120,
    nextFlyingObstacleFrame := 300,
    groundObstacleInterval := 120,
    flyingObstacleInterval := 200,
    motorcycle :=
      { y := 260, height := 60, velocityY := 0, isJumping := false,
        isDucking := false, isRidingVehicle := false, ridingVehicle := none },
    obstacles := [],
    flyingObstacles := [],
    particles :=
      [ { x := 28, y := 321, vx := -2, vy := (3 : ℚ)/5, life := 4, maxLife := 20 },
        { x := 38, y := (639 : ℚ)/2, vx := -2, vy := (1 : ℚ)/10, life := 9, maxLife := 20 },
        { x := 48, y := (641 : ℚ)/2, vx := -2, vy := (-2 : ℚ)/5, life := 14, maxLife := 20 },
        { x := 58, y := 324, vx := -2, vy := (-9 : ℚ)/10, life := 19, maxLife := 20 } ],
    sunX := 650,
    isNightMode := false,
    skyTransition := 0,
    stars := [],
    keyArrowDown := false,
    isTouchDucking := false,
    nextId := 0 }

/-- The input-free run after 200 ticks (second checkpoint): two cars on
screen (spawned at frames 120 and 180), still Playing at score 40. -/
def checkpoint200 : GameState :=
  { gameState := GState.playing,
    score := 40,
    highScore := 0,
    storedHighScore := 0,
    frameCount := 200,
    gameSpeed := 6,
    collisionFlash := 0,
    landingAnimation := 0,
    nextGroundObstacleFrame := 240,
    nextFlyingObstacleFrame := 300,
    groundObstacleInterval := 60,
    flyingObstacleInterval := 200,
    motorcycle :=
      { y := 260, height := 60, velocityY := 0, isJumping := false,
        isDucking := false, isRidingVehicle := false, ridingVehicle := none },
    obstacles :=
      [ { id := 0, x := 320, y := 275, width := 120, height := 45,
          sprite := SpriteId.car, rideable := false },
        { id := 1, x := 680, y := 275, width := 120, height := 45,
          sprite := SpriteId.car, rideable := false } ],
    flyingObstacles := [],
    particles :=
      [ { x := 28, y := 321, vx := -2, vy := (3 : ℚ)/5, life := 4, maxLife := 20 },
        { x := 38, y := (639 : ℚ)/2, vx := -2, vy := (1 : ℚ)/10, life := 9, maxLife := 20 },
        { x := 48, y := (641 : ℚ)/2, vx := -2, vy := (-2 : ℚ)/5, life := 14, maxLife := 20 },
        { x := 58, y := 324, vx := -2, vy := (-9 : ℚ)/10, life := 19, maxLife := 20 } ],
    sunX := 600,
    isNightMode := false,
    skyTransition := 0,
    stars := [],
    keyArrowDown := false,
    isTouchDucking := false,
    nextId := 2 }

/-- The survival credit a tick starting from `s` adds: one point when the
incremented frame counter is a multiple of five. -/
def survivalCredit (s : GameState) : ℤ :=
  if (s.frameCount + 1) % 5 = 0 then 1 else 0

/-- The speed at which a tick starting from `s` advects obstacles: the
current speed, already raised when the incremented frame counter hits the
difficulty interval. -/
def tickSpeed (s : GameState) : ℚ :=
  if (s.frameCount + 1) % SPEED_INCREASE_INTERVAL = 0 then s.gameSpeed + SPEED_INCREMENT
  else s.gameSpeed

/-- The points a tick starting from `s` credits for ground obstacles that
exit past the left edge. -/
def passedGroundPoints (s : GameState) : ℤ :=
  ((((s.obstacles.map fun o => { o with x := o.x - tickSpeed s }).filter
      fun o => o.x + o.width < 0).map obstaclePassPoints)).sum

/-- The points a tick starting from `s` credits for flying obstacles that
exit past the left edge. -/
def passedFlyingPoints (s : GameState) : ℤ :=
  (((s.flyingObstacles.map fun o =>
      { o with
          x := o.x - tickSpeed s * FLYING_OBSTACLE_SPEED_MULTIPLIER,
          wingFrame := ((s.frameCount + 1) / BIRD_WING_FLAP_FRAME_INTERVAL) % 2 }).filter
      fun o => o.x + o.width < 0).length) * FLYING_OBSTACLE_POINTS

/-- The vehicle pose invariant that actually holds in play: the grounded
non-ducking, non-riding motorcycle sits exactly on its ground line, a
ducking motorcycle sits the pose-height difference below it, duck and
jump are mutually exclusive, and riding excludes both duck and jump. -/
def motoInv (m : Motorcycle) : Prop :=
  (m.isJumping = false ∧ m.isDucking = false ∧ m.isRidingVehicle = false →
    m.y = motoGroundY) ∧
  (m.isDucking = true → m.y = motoGroundY + (motoNormalHeight - motoDuckHeight)) ∧
  ¬(m.isDucking = true ∧ m.isJumping = true) ∧
  (m.isRidingVehicle = true → m.isDucking = false ∧ m.isJumping = false)

/-- `motoInv` read off a game state. -/
def vehicleInv (s : GameState) : Prop := motoInv s.motorcycle

/-- The mount reference is sound: when it designates an obstacle, the
riding flag is set and an obstacle with that identity is still in the
ground collection. -/
def mountRefOk (s : GameState) : Prop :=
  match s.motorcycle.ridingVehicle with
  | none => True
  | some vid =>
    s.motorcycle.isRidingVehicle = true ∧ vid ∈ s.obstacles.map Obstacle.id

/-- A mid-session Playing snapshot (57 frames in, ten points). -/
def midSession : GameState :=
  { freshStart with score := 10, frameCount := 57 }

/-- A session state reached by starting from the touch path and then
holding the duck key for one tick. -/
def duckReached : GameState :=
  update env0 (handleKeydown true KeyCode.arrowDown (handleTouchstart true false (initialState none)))

/-- A motorcycle falling onto the top band of a rideable bus. -/
def fallingOnBus : GameState :=
  { freshStart with
      motorcycle :=
        { y := 240, height := 60, velocityY := 5, isJumping := true,
          isDucking := false, isRidingVehicle := false, ridingVehicle := none },
      obstacles := [ { id := 7, x := 40, y := 275, width := 150, height := 45,
                       sprite := SpriteId.bus, rideable := true } ] }

/-- A Playing state riding a bus that fills the motorcycle's column, with a
bird overlapping the rider's hitbox. -/
def ridingWithBird : GameState :=
  { freshStart with
      motorcycle :=
        { y := 210, height := 60, velocityY := 0, isJumping := false,
          isDucking := false, isRidingVehicle := true, ridingVehicle := some 0 },
      obstacles := [ { id := 0, x := 40, y := 275, width := 150, height := 45,
                       sprite := SpriteId.bus, rideable := true } ],
      flyingObstacles := [ { x := 60, y := 220, width := 45, height := 30, wingFrame := 0 } ] }

/-- A late-session state (frame 29998, speed 55.5) riding a bus whose
trailing edge is just ahead of the motorcycle and just inside one tick's
travel of the left screen edge. -/
def lateRide : GameState :=
  { freshStart with
      gameState := GState.playing,
      frameCount := 29998,
      gameSpeed := 55.5,
      score := 3000,
      nextGroundObstacleFrame := 1000000,
      nextFlyingObstacleFrame := 1000000,
      sunX := 700,
      motorcycle :=
        { y := 210, height := 60, velocityY := 0,
          isJumping := false, isDucking := false,
          isRidingVehicle := true, ridingVehicle := some 0 },
      obstacles := [ { id := 0, x := 2, y := 275, width := 50, height := 45,
                       sprite := SpriteId.bus, rideable := true } ],
      nextId := 1 }

/-- While riding, the ground-obstacle walk can only re-mount, never end
the game: the flag stays set, the standard test stays disabled, and the
game state and flying collection pass through untouched. -/
theorem checkGroundList_riding (hit : Rect) (s : GameState) (l : List Obstacle)
    (hr : s.motorcycle.isRidingVehicle = true) :
    (checkGroundList hit s l).2 = false ∧
    (checkGroundList hit s l).1.gameState = s.gameState ∧
    (checkGroundList hit s l).1.flyingObstacles = s.flyingObstacles ∧
    (checkGroundList hit s l).1.motorcycle.isRidingVehicle = true := by
  induction l generalizing s with
  | nil => simp [checkGroundList, hr]
  | cons o rest ih =>
    by_cases hm : (o.rideable && landingOnTop hit s.motorcycle o) = true
    · simpa [checkGroundList, hm, mountVehicle] using ih (mountVehicle s o) (by simp [mountVehicle])
    · simp only [checkGroundList, Bool.not_eq_true] at hm ⊢
      rw [if_neg (by simp [hm]), if_neg (by simp [hr])]
      exact ih s hr

/-- The flying walk ends the game exactly when the state already was over
or some bird's box overlaps the hitbox. -/
theorem checkFlyingList_gameOver_iff (hit : Rect) (s : GameState) (l : List FlyingObstacle) :
    (checkFlyingList hit s l).gameState = GState.gameOver ↔
      (s.gameState = GState.gameOver ∨
        ∃ o ∈ l, checkAABBCollision hit (flyingRect o) = true) := by
  induction l with
  | nil => simp [checkFlyingList]
  | cons o rest ih =>
    by_cases hc : checkAABBCollision hit (flyingRect o) = true
    · simp [checkFlyingList, hc, gameOverFn]
    · have hstep : checkFlyingList hit s (o :: rest) = checkFlyingList hit s rest := by
        simp [checkFlyingList, hc]
      rw [hstep, ih]
      simp [hc]

/-- Obstacles that neither admit a mount nor overlap are walked past
without any effect. -/
theorem checkGroundList_skip (hit : Rect) (s : GameState) (pre l : List Obstacle)
    (hpre : ∀ p ∈ pre, (p.rideable && landingOnTop hit s.motorcycle p) = false ∧
      checkAABBCollision hit (obstacleRect p) = false) :
    checkGroundList hit s (pre ++ l) = checkGroundList hit s l := by
  induction pre with
  | nil => rfl
  | cons p ps ih =>
    obtain ⟨h1, h2⟩ := hpre p (by simp)
    simp only [List.cons_append, checkGroundList, h1, h2, Bool.and_false, Bool.false_eq_true,
      if_false]
    exact ih fun q hq => hpre q (by simp [hq])

/-- Once mounted (not jumping, riding), the remaining ground walk is the
identity: no further mount fires and the standard test stays disabled. -/
theorem checkGroundList_mounted (hit : Rect) (s : GameState) (l : List Obstacle)
    (hj : s.motorcycle.isJumping = false) (hr : s.motorcycle.isRidingVehicle = true) :
    checkGroundList hit s l = (s, false) := by
  induction l with
  | nil => rfl
  | cons o rest ih =>
    simp only [checkGroundList, landingOnTop, hj, hr]
    simpa using ih

/-- Splitting an input-free run: `a + b` ticks are `a` ticks then `b`. -/
theorem runFrom_add (s : GameState) (a b : ℕ) :
    runFrom s (a + b) = runFrom (runFrom s a) b := by
  induction b with
  | zero => rfl
  | succ b ih =>
    show update env0 (runFrom s (a + b)) = update env0 (runFrom (runFrom s a) b)
    rw [ih]

/-- `updateStars` only rewrites the star field. -/
theorem updateStars_shape (s : GameState) :
    ∃ st, updateStars s = { s with stars := st } := by
  unfold updateStars
  split <;> exact ⟨_, rfl⟩

/-- The day/night phase only rewrites the sky fields (sun position, night
flag, transition, stars). -/
theorem updateDayNightCycle_shape (env : TickEnv) (s : GameState) :
    ∃ a b c d,
      updateDayNightCycle env s =
        { s with
            sunX := a, isNightMode := b, skyTransition := c, stars := d } := by
  unfold updateDayNightCycle updateStars
  dsimp only
  repeat' split
  all_goals exact ⟨_, _, _, _, rfl⟩

/-- The mount-handling phase only rewrites the motorcycle. -/
theorem ridingPhase_shape (s : GameState) :
    ∃ m, ridingPhase s = { s with motorcycle := m } := by
  unfold ridingPhase
  repeat' split
  all_goals exact ⟨_, rfl⟩

/-- The pose phase only rewrites the motorcycle. -/
theorem posePhase_shape (s : GameState) :
    ∃ m, posePhase s = { s with motorcycle := m } := by
  unfold posePhase
  repeat' split
  all_goals exact ⟨_, rfl⟩

/-- The gravity phase only rewrites the motorcycle and the landing
animation counter. -/
theorem gravityPhase_shape (s : GameState) :
    ∃ m la, gravityPhase s = { s with motorcycle := m, landingAnimation := la } := by
  unfold gravityPhase
  dsimp only
  repeat' split
  all_goals exact ⟨_, _, rfl⟩

/-- The landing counter phase only rewrites the landing animation. -/
theorem landingPhase_shape (s : GameState) :
    ∃ la, landingPhase s = { s with landingAnimation := la } := by
  unfold landingPhase
  split <;> exact ⟨_, rfl⟩

/-- `updateMotorcycle` only rewrites the motorcycle and the landing
animation counter. -/
theorem updateMotorcycle_shape (s : GameState) :
    ∃ m la,
      updateMotorcycle s = { s with motorcycle := m, landingAnimation := la } := by
  unfold updateMotorcycle
  obtain ⟨m1, h1⟩ := ridingPhase_shape s
  rw [h1]
  obtain ⟨m2, h2⟩ := posePhase_shape { s with motorcycle := m1 }
  rw [h2]
  obtain ⟨m3, la3, h3⟩ := gravityPhase_shape { s with motorcycle := m2 }
  rw [h3]
  obtain ⟨la4, h4⟩ := landingPhase_shape
    { s with motorcycle := m3, landingAnimation := la3 }
  rw [h4]
  exact ⟨_, _, rfl⟩

/-- The ground-spawn attempt only rewrites the ground collection, the id
counter, and the ground spawn schedule. -/
theorem spawnGroundObstacle_shape (env : TickEnv) (s : GameState) :
    ∃ obs nid gi f,
      spawnGroundObstacle env s =
        { s with
            obstacles := obs, nextId := nid, groundObstacleInterval := gi,
            nextGroundObstacleFrame := f } := by
  unfold spawnGroundObstacle
  repeat' split
  all_goals exact ⟨_, _, _, _, rfl⟩

/-- The flying-spawn attempt only rewrites the flying collection and the
flying spawn schedule. -/
theorem spawnFlyingObstacle_shape (env : TickEnv) (s : GameState) :
    ∃ fo fi f,
      spawnFlyingObstacle env s =
        { s with
            flyingObstacles := fo, flyingObstacleInterval := fi,
            nextFlyingObstacleFrame := f } := by
  unfold spawnFlyingObstacle
  repeat' split
  all_goals exact ⟨_, _, _, rfl⟩

/-- The dust emitter only rewrites the particle list. -/
theorem spawnDustParticle_shape (env : TickEnv) (s : GameState) :
    ∃ ps, spawnDustParticle env s = { s with particles := ps } := by
  unfold spawnDustParticle
  split <;> exact ⟨_, rfl⟩

/-- The particle step only rewrites the particle list. -/
theorem updateParticles_shape (s : GameState) :
    ∃ ps, updateParticles s = { s with particles := ps } := by
  exact ⟨_, rfl⟩

/-- `gameOver` only rewrites the state tag, the collision flash, and the
two high-score slots. -/
theorem gameOverFn_shape (s : GameState) :
    ∃ g cf h st,
      gameOverFn s =
        { s with
            gameState := g, collisionFlash := cf, highScore := h,
            storedHighScore := st } := by
  exact ⟨_, _, _, _, rfl⟩

/-- The ground pass of the resolver only rewrites the motorcycle, the
state tag, the collision flash, and the high-score slots. -/
theorem checkGroundList_shape (hit : Rect) (s : GameState) (l : List Obstacle) :
    ∃ m g cf h st,
      (checkGroundList hit s l).1 =
        { s with
            motorcycle := m, gameState := g, collisionFlash := cf,
            highScore := h, storedHighScore := st } := by
  induction l generalizing s with
  | nil => exact ⟨_, _, _, _, _, rfl⟩
  | cons o rest ih =>
    unfold checkGroundList
    repeat' split
    · obtain ⟨m, g, cf, h, st, hh⟩ := ih (mountVehicle s o)
      exact ⟨m, g, cf, h, st, by rw [hh]; rfl⟩
    · exact ⟨_, _, _, _, _, rfl⟩
    · exact ih s

/-- The flying pass of the resolver only rewrites the state tag, the
collision flash, and the high-score slots. -/
theorem checkFlyingList_shape (hit : Rect) (s : GameState) (l : List FlyingObstacle) :
    ∃ g cf h st,
      checkFlyingList hit s l =
        { s with
            gameState := g, collisionFlash := cf, highScore := h,
            storedHighScore := st } := by
  induction l with
  | nil => exact ⟨_, _, _, _, rfl⟩
  | cons o rest ih =>
    unfold checkFlyingList
    split
    · exact ⟨_, _, _, _, rfl⟩
    · exact ih

/-- `checkCollisions` only rewrites the motorcycle, the state tag, the
collision flash, and the high-score slots. -/
theorem checkCollisions_shape (s : GameState) :
    ∃ m g cf h st,
      checkCollisions s =
        { s with
            motorcycle := m, gameState := g, collisionFlash := cf,
            highScore := h, storedHighScore := st } := by
  unfold checkCollisions
  dsimp only
  obtain ⟨m, g, cf, h, st, hh⟩ :=
    checkGroundList_shape (getMotorcycleHitbox s.motorcycle) s s.obstacles
  split
  · exact ⟨m, g, cf, h, st, hh⟩
  · obtain ⟨g2, cf2, h2, st2, hf⟩ := checkFlyingList_shape (getMotorcycleHitbox s.motorcycle)
      (checkGroundList (getMotorcycleHitbox s.motorcycle) s s.obstacles).1
      (checkGroundList (getMotorcycleHitbox s.motorcycle) s s.obstacles).1.flyingObstacles
    exact ⟨m, g2, cf2, h2, st2, by rw [hf, hh]⟩

/-- The pose invariant survives the mount-handling phase. -/
theorem motoInv_ridingPhase (s : GameState) (h : motoInv s.motorcycle) :
    motoInv (ridingPhase s).motorcycle := by
  obtain ⟨h1, h2, h3, h4⟩ := h
  unfold ridingPhase
  repeat' split
  all_goals refine ⟨?_, ?_, ?_, ?_⟩ <;> intros <;> simp_all [motoInv]

/-- The pose invariant survives the duck/stand phase. -/
theorem motoInv_posePhase (s : GameState) (h : motoInv s.motorcycle) :
    motoInv (posePhase s).motorcycle := by
  obtain ⟨h1, h2, h3, h4⟩ := h
  unfold posePhase
  repeat' split
  all_goals refine ⟨?_, ?_, ?_, ?_⟩ <;> intros <;> simp_all [motoInv]

/-- The pose invariant survives gravity integration and landing. -/
theorem motoInv_gravityPhase (s : GameState) (h : motoInv s.motorcycle) :
    motoInv (gravityPhase s).motorcycle := by
  obtain ⟨h1, h2, h3, h4⟩ := h
  unfold gravityPhase
  dsimp only
  repeat' split
  all_goals refine ⟨?_, ?_, ?_, ?_⟩ <;> intros <;> simp_all [motoInv]

/-- The pose invariant survives `updateMotorcycle`. -/
theorem motoInv_updateMotorcycle (s : GameState) (h : motoInv s.motorcycle) :
    motoInv (updateMotorcycle s).motorcycle := by
  unfold updateMotorcycle
  obtain ⟨la, hla⟩ := landingPhase_shape (gravityPhase (posePhase (ridingPhase s)))
  rw [hla]
  exact motoInv_gravityPhase _ (motoInv_posePhase _ (motoInv_ridingPhase _ h))

/-- The pose invariant survives the ground pass of the resolver (a mount
happens only while jumping, which excludes ducking). -/
theorem motoInv_checkGroundList (hit : Rect) (s : GameState) (l : List Obstacle)
    (h : motoInv s.motorcycle) : motoInv (checkGroundList hit s l).1.motorcycle := by
  induction l generalizing s with
  | nil => exact h
  | cons o rest ih =>
    unfold checkGroundList
    split
    · rename_i hcond
      apply ih
      rw [Bool.and_eq_true] at hcond
      have hland := hcond.2
      unfold landingOnTop at hland
      simp only [Bool.and_eq_true, decide_eq_true_eq] at hland
      obtain ⟨h1, h2, h3, h4⟩ := h
      have hj : s.motorcycle.isJumping = true := hland.1.1.1.1.1
      refine ⟨?_, ?_, ?_, ?_⟩ <;> intros <;> simp_all [mountVehicle, motoInv]
    · split
      · exact h
      · exact ih s h

/-- The pose invariant survives the flying pass (it never touches the
motorcycle). -/
theorem motoInv_checkFlyingList (hit : Rect) (s : GameState) (l : List FlyingObstacle)
    (h : motoInv s.motorcycle) : motoInv (checkFlyingList hit s l).motorcycle := by
  induction l with
  | nil => exact h
  | cons o rest ih =>
    unfold checkFlyingList
    split
    · exact h
    · exact ih

/-- The pose invariant survives the whole collision resolution. -/
theorem motoInv_checkCollisions (s : GameState) (h : motoInv s.motorcycle) :
    motoInv (checkCollisions s).motorcycle := by
  unfold checkCollisions
  dsimp only
  split
  · exact motoInv_checkGroundList _ _ _ h
  · exact motoInv_checkFlyingList _ _ _ (motoInv_checkGroundList _ _ _ h)

/-- `scoreTick` and `speedTick` leave the motorcycle alone. -/
theorem scoreTick_motorcycle (s : GameState) :
    (scoreTick s).motorcycle = s.motorcycle ∧ (speedTick s).motorcycle = s.motorcycle := by
  unfold scoreTick speedTick
  constructor <;> (split <;> rfl)

/-- The pose invariant survives a whole tick. -/
theorem motoInv_update (env : TickEnv) (s : GameState) (h : motoInv s.motorcycle) :
    motoInv (update env s).motorcycle := by
  unfold update
  split
  · exact h
  · obtain ⟨a, b, c, d, hd⟩ := updateDayNightCycle_shape env (incFrame s)
    have h2 : motoInv (speedTick (scoreTick (updateDayNightCycle env
        (incFrame s)))).motorcycle := by
      rw [(scoreTick_motorcycle _).2, (scoreTick_motorcycle _).1, hd]
      exact h
    have h3 := motoInv_updateMotorcycle _ h2
    obtain ⟨obs, nid, gi, f, hg⟩ := spawnGroundObstacle_shape env
      (updateObstacles (updateMotorcycle (speedTick (scoreTick (updateDayNightCycle env
        (incFrame s))))))
    obtain ⟨fo, fi, ff, hf⟩ := spawnFlyingObstacle_shape env
      (spawnGroundObstacle env (updateObstacles (updateMotorcycle (speedTick (scoreTick
        (updateDayNightCycle env (incFrame s)))))))
    obtain ⟨ps, hp⟩ := spawnDustParticle_shape env
      (spawnObstacle env (updateObstacles (updateMotorcycle (speedTick (scoreTick
        (updateDayNightCycle env (incFrame s)))))))
    apply motoInv_checkCollisions
    show motoInv (updateParticles _).motorcycle
    have hup : ∀ t : GameState, (updateParticles t).motorcycle = t.motorcycle :=
      fun t => rfl
    rw [hup, hp]
    show motoInv (spawnObstacle env _).motorcycle
    unfold spawnObstacle
    rw [hf, hg]
    show motoInv (updateObstacles _).motorcycle
    have huo : ∀ t : GameState, (updateObstacles t).motorcycle = t.motorcycle :=
      fun t => rfl
    rw [huo]
    exact h3

/-- A session-starting `startGame` re-establishes the pose invariant;
an orientation-refused `startGame` leaves the motorcycle alone. -/
theorem motoInv_startGame (landscape : Bool) (s : GameState) (h : motoInv s.motorcycle) :
    motoInv (startGame landscape s).motorcycle := by
  unfold startGame
  repeat' split
  all_goals first
    | exact h
    | exact ⟨fun _ => rfl, fun hh => by simp at hh, fun hh => by simp at hh,
        fun hh => ⟨rfl, rfl⟩⟩

/-- The pose invariant survives a jump request. -/
theorem motoInv_performJump (s : GameState) (h : motoInv s.motorcycle) :
    motoInv (performJump s).motorcycle := by
  obtain ⟨h1, h2, h3, h4⟩ := h
  unfold performJump
  repeat' split
  all_goals refine ⟨?_, ?_, ?_, ?_⟩ <;> intros <;> simp_all [motoInv]

/-- The duck/stand phase is the identity while riding. -/
theorem posePhase_riding (s : GameState) (h : s.motorcycle.isRidingVehicle = true) :
    posePhase s = s := by
  unfold posePhase
  rw [if_neg (by simp [h]), if_neg (by simp [h])]

/-- The duck/stand phase never touches the mount reference. -/
theorem posePhase_ref (s : GameState) :
    (posePhase s).motorcycle.ridingVehicle = s.motorcycle.ridingVehicle := by
  unfold posePhase
  repeat' split
  all_goals rfl

/-- Gravity integration either clears the mount reference (on landing) or
leaves the mount fields alone. -/
theorem gravityPhase_ref (s : GameState) :
    (gravityPhase s).motorcycle.ridingVehicle = none ∨
    ((gravityPhase s).motorcycle.ridingVehicle = s.motorcycle.ridingVehicle ∧
      (gravityPhase s).motorcycle.isRidingVehicle = s.motorcycle.isRidingVehicle) := by
  unfold gravityPhase
  dsimp only
  repeat' split
  · left
    rfl
  · right
    exact ⟨rfl, rfl⟩
  · right
    exact ⟨rfl, rfl⟩

/-- After the mount-handling phase, the mount reference is either cleared
or still designates an obstacle of the collection whose trailing edge has
not passed the motorcycle. -/
theorem ridingPhase_ref (s : GameState) (h : mountRefOk s) :
    (ridingPhase s).motorcycle.ridingVehicle = none ∨
    (∃ o ∈ s.obstacles,
      (ridingPhase s).motorcycle.ridingVehicle = some o.id ∧
      (ridingPhase s).motorcycle.isRidingVehicle = true ∧
      ¬(o.x + o.width < motoX)) := by
  unfold ridingPhase
  split
  · rename_i hnone
    left
    simp [hnone]
  · rename_i vid hsome
    unfold mountRefOk at h
    rw [hsome] at h
    split
    · split
      · rename_i vehicle hfind
        split
        · left
          rfl
        · right
          have hid : vehicle.id = vid := by
            have := List.find?_some hfind
            simpa using this
          refine ⟨vehicle, List.mem_of_find?_eq_some hfind, ?_, ?_, by assumption⟩
          · show s.motorcycle.ridingVehicle = some vehicle.id
            rw [hsome, hid]
          · show s.motorcycle.isRidingVehicle = true
            assumption
      · left
        rfl
    · exact absurd h.1 (by assumption)

/-- After `updateMotorcycle`, the mount reference is either cleared or
still designates an obstacle of the collection whose trailing edge has
not passed the motorcycle. -/
theorem updateMotorcycle_mountRef (s : GameState) (h : mountRefOk s) :
    (updateMotorcycle s).motorcycle.ridingVehicle = none ∨
    (∃ o ∈ s.obstacles,
      (updateMotorcycle s).motorcycle.ridingVehicle = some o.id ∧
      (updateMotorcycle s).motorcycle.isRidingVehicle = true ∧
      ¬(o.x + o.width < motoX)) := by
  have hland : ∀ t : GameState, (landingPhase t).motorcycle = t.motorcycle := by
    intro t
    obtain ⟨la, hla⟩ := landingPhase_shape t
    rw [hla]
  unfold updateMotorcycle
  rw [hland]
  rcases ridingPhase_ref s h with hnone | ⟨o, hmem, href, hride, hfar⟩
  · left
    rcases gravityPhase_ref (posePhase (ridingPhase s)) with hg | ⟨hg, _⟩
    · exact hg
    · rw [hg, posePhase_ref, hnone]
  · rw [posePhase_riding _ hride]
    rcases gravityPhase_ref (ridingPhase s) with hg | ⟨hg1, hg2⟩
    · left
      exact hg
    · right
      exact ⟨o, hmem, by rw [hg1, href], by rw [hg2, hride], hfar⟩

/-- The ground pass preserves mount-reference soundness: a mount always
records an obstacle of the current collection. -/
theorem mountRefOk_checkGroundList (hit : Rect) (s : GameState) (l : List Obstacle)
    (h : mountRefOk s) (hsub : ∀ o ∈ l, o ∈ s.obstacles) :
    mountRefOk (checkGroundList hit s l).1 := by
  induction l generalizing s with
  | nil => exact h
  | cons o rest ih =>
    unfold checkGroundList
    split
    · refine ih (mountVehicle s o) ?_ fun p hp => hsub p (by simp [hp])
      unfold mountRefOk
      exact ⟨rfl, List.mem_map_of_mem _ (hsub o (by simp))⟩
    · split
      · exact h
      · exact ih s h fun p hp => hsub p (by simp [hp])

/-- The flying pass preserves mount-reference soundness (it touches
neither the motorcycle nor the collections). -/
theorem mountRefOk_checkFlyingList (hit : Rect) (s : GameState) (l : List FlyingObstacle)
    (h : mountRefOk s) : mountRefOk (checkFlyingList hit s l) := by
  induction l with
  | nil => exact h
  | cons o rest ih =>
    unfold checkFlyingList
    split
    · exact h
    · exact ih

/-- Collision resolution preserves mount-reference soundness. -/
theorem mountRefOk_checkCollisions (s : GameState) (h : mountRefOk s) :
    mountRefOk (checkCollisions s) := by
  unfold checkCollisions
  dsimp only
  split
  · exact mountRefOk_checkGroundList _ _ _ h fun o ho => ho
  · exact mountRefOk_checkFlyingList _ _ _
      (mountRefOk_checkGroundList _ _ _ h fun o ho => ho)

/-- The score and speed counters touch neither collection. -/
theorem counterTick_fields (s : GameState) :
    (scoreTick s).obstacles = s.obstacles ∧ (scoreTick s).gameSpeed = s.gameSpeed ∧
    (scoreTick s).frameCount = s.frameCount ∧ (speedTick s).obstacles = s.obstacles ∧
    (speedTick s).frameCount = s.frameCount := by
  unfold scoreTick speedTick
  refine ⟨?_, ?_, ?_, ?_, ?_⟩ <;> (split <;> rfl)

/-- The day/night phase leaves every session counter and both collections
alone. -/
theorem dayNight_fields (env : TickEnv) (s : GameState) :
    (updateDayNightCycle env s).score = s.score ∧
    (updateDayNightCycle env s).frameCount = s.frameCount ∧
    (updateDayNightCycle env s).gameSpeed = s.gameSpeed ∧
    (updateDayNightCycle env s).obstacles = s.obstacles ∧
    (updateDayNightCycle env s).motorcycle = s.motorcycle := by
  obtain ⟨a, b, c, d, hd⟩ := updateDayNightCycle_shape env s
  rw [hd]
  exact ⟨rfl, rfl, rfl, rfl, rfl⟩

/-- The obstacle-advection speed a tick actually uses is `tickSpeed`. -/
theorem midTick_gameSpeed (env : TickEnv) (s : GameState) :
    (speedTick (scoreTick (updateDayNightCycle env (incFrame s)))).gameSpeed =
      tickSpeed s := by
  have hfc : (scoreTick (updateDayNightCycle env (incFrame s))).frameCount =
      s.frameCount + 1 := by
    rw [(counterTick_fields _).2.2.1, (dayNight_fields env _).2.1]
    rfl
  have hgs : (scoreTick (updateDayNightCycle env (incFrame s))).gameSpeed =
      s.gameSpeed := by
    rw [(counterTick_fields _).2.1, (dayNight_fields env _).2.2.1]
    rfl
  simp only [speedTick, tickSpeed, hfc]
  split_ifs <;> simp [hgs]

/-- A ground spawn only appends: existing obstacles stay present. -/
theorem spawnObstacle_keeps (env : TickEnv) (t : GameState) (o : Obstacle)
    (ho : o ∈ t.obstacles) : o ∈ (spawnObstacle env t).obstacles := by
  have hfly : ∀ u : GameState, (spawnFlyingObstacle env u).obstacles = u.obstacles := by
    intro u
    obtain ⟨fo, fi, ff, hf⟩ := spawnFlyingObstacle_shape env u
    rw [hf]
  unfold spawnObstacle
  rw [hfly]
  unfold spawnGroundObstacle
  dsimp only
  repeat' split
  all_goals simp [ho]

/-- C1: for every frame count and every parameter tuple with a
non-negative minimum spacing, `calculateSpawnInterval`'s adjusted bounds
satisfy adjustedMax ≥ adjustedMin + minSpacing, and its returned interval
(for any random draw in [0, 1)) lies within [adjustedMin, adjustedMax],
no matter how large the difficulty speed factor grows. -/
theorem C1_interval_bounds
    (frame : ℕ) (minInterval maxInterval minCap minSpacing r : ℚ)
    (hsp : 0 ≤ minSpacing) (hr0 : 0 ≤ r) (hr1 : r < 1) :
    adjustedMinInterval frame minInterval minCap + minSpacing ≤
      adjustedMaxInterval frame minInterval maxInterval minCap minSpacing ∧
    adjustedMinInterval frame minInterval minCap ≤
      calculateSpawnInterval frame minInterval maxInterval minCap minSpacing r ∧
    calculateSpawnInterval frame minInterval maxInterval minCap minSpacing r ≤
      adjustedMaxInterval frame minInterval maxInterval minCap minSpacing := by
  have hfloor :
      adjustedMinInterval frame minInterval minCap + minSpacing ≤
        adjustedMaxInterval frame minInterval maxInterval minCap minSpacing :=
    le_max_left _ _
  refine ⟨hfloor, ?_, ?_⟩
  · unfold calculateSpawnInterval
    nlinarith [mul_nonneg hr0 (by linarith :
      (0 : ℚ) ≤ adjustedMaxInterval frame minInterval maxInterval minCap minSpacing
        - adjustedMinInterval frame minInterval minCap)]
  · unfold calculateSpawnInterval
    nlinarith [mul_le_of_le_one_left
      (by linarith :
        (0 : ℚ) ≤ adjustedMaxInterval frame minInterval maxInterval minCap minSpacing
          - adjustedMinInterval frame minInterval minCap)
      (le_of_lt hr1)]

/-- Witness for C1 at frame 600 with the ground-obstacle parameters and a
middle random draw. -/
theorem C1_interval_bounds_witness :
    adjustedMinInterval 600 60 40 + 30 ≤ adjustedMaxInterval 600 60 120 40 30 ∧
    adjustedMinInterval 600 60 40 ≤ calculateSpawnInterval 600 60 120 40 30 (1/2) ∧
    calculateSpawnInterval 600 60 120 40 30 (1/2) ≤ adjustedMaxInterval 600 60 120 40 30 :=
  C1_interval_bounds 600 60 120 40 30 (1/2) (by norm_num) (by norm_num) (by norm_num)

/-- C2: a session-starting `startGame` call puts every mutable session
field at its documented initial value, whatever state the previous
session left behind (so the fresh snapshot is independent of it). -/
theorem C2_reset_completeness (s : GameState) :
    (startGame true s).gameState = GState.playing ∧
    (startGame true s).score = 0 ∧
    (startGame true s).frameCount = 0 ∧
    (startGame true s).gameSpeed = INITIAL_SPEED ∧
    (startGame true s).motorcycle =
      { y := motoGroundY, height := motoNormalHeight, velocityY := 0,
        isJumping := false, isDucking := false,
        isRidingVehicle := false, ridingVehicle := none } ∧
    (startGame true s).obstacles = [] ∧
    (startGame true s).flyingObstacles = [] ∧
    (startGame true s).particles = [] ∧
    (startGame true s).collisionFlash = 0 ∧
    (startGame true s).landingAnimation = 0 ∧
    (startGame true s).nextGroundObstacleFrame = OBSTACLE_MAX_INTERVAL ∧
    (startGame true s).nextFlyingObstacleFrame =
      FLYING_OBSTACLE_MAX_INTERVAL + (FLYING_OBSTACLE_MIN_SCORE : ℚ) ∧
    (startGame true s).groundObstacleInterval = OBSTACLE_MAX_INTERVAL ∧
    (startGame true s).flyingObstacleInterval = FLYING_OBSTACLE_MAX_INTERVAL ∧
    (startGame true s).sunX = canvasWidth - SUN_START_X ∧
    (startGame true s).isNightMode = false ∧
    (startGame true s).skyTransition = 0 ∧
    (startGame true s).stars = [] := by
  simp [startGame]

/-- C3 counterexample: `startGame` invoked in a Playing state with ten
points is not a no-op — it resets the score and frame counter. -/
theorem C3_counterexample :
    midSession.gameState = GState.playing ∧
    midSession.score = 10 ∧
    midSession.frameCount = 57 ∧
    (startGame true midSession).score = 0 ∧
    (startGame true midSession).frameCount = 0 ∧
    startGame true midSession ≠ midSession := by
  decide

/-- C3 amended: the start trigger is gated at the input layer, not inside
`startGame` — a Space keydown while Playing never reaches `startGame`
(it is routed to the jump), so the state machine, score, frame counter
and both obstacle collections are untouched; `startGame` itself resets
unconditionally. -/
theorem C3_start_gated_at_input
    (landscape : Bool) (s : GameState) (h : s.gameState = GState.playing) :
    (handleKeydown landscape KeyCode.space s).gameState = GState.playing ∧
    (handleKeydown landscape KeyCode.space s).score = s.score ∧
    (handleKeydown landscape KeyCode.space s).frameCount = s.frameCount ∧
    (handleKeydown landscape KeyCode.space s).gameSpeed = s.gameSpeed ∧
    (handleKeydown landscape KeyCode.space s).obstacles = s.obstacles ∧
    (handleKeydown landscape KeyCode.space s).flyingObstacles = s.flyingObstacles := by
  simp [handleKeydown, performJump, h]
  split <;> simp_all

/-- Witness for C3's amended statement at the concrete mid-session state. -/
theorem C3_start_gated_at_input_witness :
    (handleKeydown true KeyCode.space midSession).score = midSession.score ∧
    (handleKeydown true KeyCode.space midSession).frameCount = midSession.frameCount :=
  ⟨(C3_start_gated_at_input true midSession (by decide)).2.1,
   (C3_start_gated_at_input true midSession (by decide)).2.2.1⟩

/-- C8: at the game-over transition the high score is raised and persisted
exactly when the session score strictly exceeds it, and the startup read
of a missing or non-numeric persisted slot yields 0. -/
theorem C8_high_score_policy :
    (∀ s : GameState,
      (gameOverFn s).gameState = GState.gameOver ∧
      (gameOverFn s).highScore = (if s.highScore < s.score then s.score else s.highScore) ∧
      (gameOverFn s).storedHighScore =
        (if s.highScore < s.score then s.score else s.storedHighScore) ∧
      ((gameOverFn s).highScore ≠ s.highScore ↔ s.highScore < s.score) ∧
      (¬ s.highScore < s.score → (gameOverFn s).storedHighScore = s.storedHighScore)) ∧
    readHighScore none = 0 ∧
    (∀ str, jsParseInt str = none → readHighScore (some str) = 0) := by
  refine ⟨fun s => ?_, rfl, fun str h => ?_⟩
  · refine ⟨rfl, ?_, ?_, ?_, ?_⟩
    · simp [gameOverFn, gt_iff_lt]
    · simp [gameOverFn, gt_iff_lt]
    · constructor
      · intro hne
        by_contra hle
        exact hne (by simp [gameOverFn, gt_iff_lt, hle])
      · intro hlt
        simp [gameOverFn, gt_iff_lt, hlt]
        omega
    · intro hle
      simp [gameOverFn, gt_iff_lt, hle]
  · simp [readHighScore, h]

/-- Witness for C8 at a concrete state and a concrete non-numeric slot. -/
theorem C8_high_score_policy_witness :
    (gameOverFn midSession).highScore =
      (if midSession.highScore < midSession.score then midSession.score
       else midSession.highScore) ∧
    readHighScore (some "abc") = 0 :=
  ⟨(C8_high_score_policy.1 midSession).2.1,
   C8_high_score_policy.2.2 "abc" (by decide)⟩

/-- C10 (implicit): while riding when the collision check runs, no ground
obstacle can end the game — the standard AABB pass over ground obstacles
is disabled — yet the tick still ends in game-over exactly when some
flying obstacle's box overlaps the motorcycle's hitbox. -/
theorem C10_riding_immunity (s : GameState)
    (hp : s.gameState = GState.playing)
    (hr : s.motorcycle.isRidingVehicle = true) :
    (checkCollisions s).gameState = GState.gameOver ↔
      ∃ o ∈ s.flyingObstacles,
        checkAABBCollision (getMotorcycleHitbox s.motorcycle) (flyingRect o) = true := by
  obtain ⟨h2, hgs, hfly, _⟩ :=
    checkGroundList_riding (getMotorcycleHitbox s.motorcycle) s s.obstacles hr
  unfold checkCollisions
  simp only [h2, Bool.false_eq_true, if_false, hfly]
  rw [checkFlyingList_gameOver_iff, hgs, hp]
  simp

/-- Witness for C10: a riding state with one overlapping bird ends in
game-over that tick. -/
theorem C10_riding_immunity_witness :
    (checkCollisions ridingWithBird).gameState = GState.gameOver :=
  (C10_riding_immunity ridingWithBird (by decide) (by decide)).mpr
    ⟨{ x := 60, y := 220, width := 45, height := 30, wingFrame := 0 }, by decide,
      by with_unfolding_all decide⟩

/-- C4: when the resolver reaches a rideable obstacle (here: after a
prefix of obstacles that neither mount nor collide) while the motorcycle
is falling, horizontally overlapping it, and with its hitbox bottom in
the tolerance band around the obstacle's top edge, the ground pass mounts
the motorcycle on that obstacle (riding flag and mount reference set,
jump and vertical velocity cleared) and ends with no game-over, even
though the bounding boxes overlap. -/
theorem C4_mount_priority (s : GameState) (pre : List Obstacle) (o : Obstacle)
    (rest : List Obstacle)
    (hobs : s.obstacles = pre ++ o :: rest)
    (hpre : ∀ p ∈ pre,
      (p.rideable && landingOnTop (getMotorcycleHitbox s.motorcycle) s.motorcycle p) = false ∧
      checkAABBCollision (getMotorcycleHitbox s.motorcycle) (obstacleRect p) = false)
    (hride : o.rideable = true)
    (hj : s.motorcycle.isJumping = true)
    (hv : 0 < s.motorcycle.velocityY)
    (hx1 : o.x < (getMotorcycleHitbox s.motorcycle).x + (getMotorcycleHitbox s.motorcycle).width)
    (hx2 : (getMotorcycleHitbox s.motorcycle).x < o.x + o.width)
    (hb1 : (getMotorcycleHitbox s.motorcycle).y + (getMotorcycleHitbox s.motorcycle).height ≤
      o.y + 10)
    (hb2 : o.y - 5 ≤
      (getMotorcycleHitbox s.motorcycle).y + (getMotorcycleHitbox s.motorcycle).height) :
    checkGroundList (getMotorcycleHitbox s.motorcycle) s s.obstacles = (mountVehicle s o, false) ∧
    (mountVehicle s o).motorcycle.isRidingVehicle = true ∧
    (mountVehicle s o).motorcycle.ridingVehicle = some o.id ∧
    (mountVehicle s o).motorcycle.isJumping = false ∧
    (mountVehicle s o).motorcycle.velocityY = 0 ∧
    (mountVehicle s o).gameState = s.gameState := by
  have hland : landingOnTop (getMotorcycleHitbox s.motorcycle) s.motorcycle o = true := by
    simp [landingOnTop, hj, hv, hx1, hx2, hb1, hb2]
  refine ⟨?_, by simp [mountVehicle], by simp [mountVehicle], by simp [mountVehicle],
    by simp [mountVehicle], by simp [mountVehicle]⟩
  rw [hobs, checkGroundList_skip _ _ _ _ hpre]
  simp only [checkGroundList, hride, hland, Bool.and_self, if_true]
  exact checkGroundList_mounted _ _ _ (by simp [mountVehicle]) (by simp [mountVehicle])

/-- Witness for C4: a motorcycle falling onto a bus roof mounts it. -/
theorem C4_mount_priority_witness :
    checkGroundList (getMotorcycleHitbox fallingOnBus.motorcycle) fallingOnBus
        fallingOnBus.obstacles =
      (mountVehicle fallingOnBus
        { id := 7, x := 40, y := 275, width := 150, height := 45,
          sprite := SpriteId.bus, rideable := true }, false) :=
  (C4_mount_priority fallingOnBus []
    { id := 7, x := 40, y := 275, width := 150, height := 45,
      sprite := SpriteId.bus, rideable := true } []
    (by decide) (by intro p hp; cases hp) (by decide) (by decide)
    (by with_unfolding_all decide) (by with_unfolding_all decide)
    (by with_unfolding_all decide) (by with_unfolding_all decide)
    (by with_unfolding_all decide)).1

/-- C5: within a session the score never decreases, and every tick's
increase decomposes exactly into the survival credit (one point when the
advanced frame counter is a multiple of five) plus the pass credits of
the ground and flying obstacles that exited left this tick, each counted
once at its fixed value; outside Playing a tick changes nothing. -/
theorem C5_score_sources (env : TickEnv) (s : GameState) :
    s.score ≤ (update env s).score ∧
    0 ≤ survivalCredit s ∧
    0 ≤ passedGroundPoints s ∧
    0 ≤ passedFlyingPoints s ∧
    (s.gameState = GState.playing →
      (update env s).score =
        s.score + survivalCredit s + passedGroundPoints s + passedFlyingPoints s) ∧
    (s.gameState ≠ GState.playing → update env s = s) := by
  have hsc : 0 ≤ survivalCredit s := by
    unfold survivalCredit
    split <;> norm_num
  have hgp : 0 ≤ passedGroundPoints s := by
    unfold passedGroundPoints
    apply List.sum_nonneg
    intro x hx
    simp only [List.mem_map] at hx
    obtain ⟨o, _, rfl⟩ := hx
    unfold obstaclePassPoints VEHICLE_POINTS RIDEABLE_VEHICLE_POINTS
    split <;> norm_num
  have hfp : 0 ≤ passedFlyingPoints s := by
    unfold passedFlyingPoints FLYING_OBSTACLE_POINTS
    exact mul_nonneg (Int.natCast_nonneg _) (by norm_num)
  have hnp : s.gameState ≠ GState.playing → update env s = s := by
    intro h
    unfold update
    rw [if_pos h]
  have scoreCC : ∀ t, (checkCollisions t).score = t.score := by
    intro t
    obtain ⟨m, g, cf, h2, st, ht⟩ := checkCollisions_shape t
    rw [ht]
  have scorePart : ∀ t, (updateParticles t).score = t.score := fun t => rfl
  have scoreDust : ∀ t, (spawnDustParticle env t).score = t.score := by
    intro t
    obtain ⟨ps, hp⟩ := spawnDustParticle_shape env t
    rw [hp]
  have scoreSpawn : ∀ t, (spawnObstacle env t).score = t.score := by
    intro t
    obtain ⟨obs, nid, gi, f, hg⟩ := spawnGroundObstacle_shape env t
    obtain ⟨fo, fi, ff, hf⟩ := spawnFlyingObstacle_shape env (spawnGroundObstacle env t)
    unfold spawnObstacle
    rw [hf, hg]
  have mot : ∀ t, (updateMotorcycle t).score = t.score ∧
      (updateMotorcycle t).frameCount = t.frameCount ∧
      (updateMotorcycle t).gameSpeed = t.gameSpeed ∧
      (updateMotorcycle t).obstacles = t.obstacles ∧
      (updateMotorcycle t).flyingObstacles = t.flyingObstacles := by
    intro t
    obtain ⟨m, la, hm⟩ := updateMotorcycle_shape t
    rw [hm]
    exact ⟨rfl, rfl, rfl, rfl, rfl⟩
  have dn : ∀ t, (updateDayNightCycle env t).score = t.score ∧
      (updateDayNightCycle env t).frameCount = t.frameCount ∧
      (updateDayNightCycle env t).gameSpeed = t.gameSpeed ∧
      (updateDayNightCycle env t).obstacles = t.obstacles ∧
      (updateDayNightCycle env t).flyingObstacles = t.flyingObstacles := by
    intro t
    obtain ⟨a, b, c, d, hd⟩ := updateDayNightCycle_shape env t
    rw [hd]
    exact ⟨rfl, rfl, rfl, rfl, rfl⟩
  have st1 : ∀ t, (scoreTick t).score = t.score + (if t.frameCount % 5 = 0 then 1 else 0) := by
    intro t
    unfold scoreTick
    split <;> simp
  have st2 : ∀ t, (scoreTick t).frameCount = t.frameCount ∧
      (scoreTick t).gameSpeed = t.gameSpeed ∧
      (scoreTick t).obstacles = t.obstacles ∧
      (scoreTick t).flyingObstacles = t.flyingObstacles := by
    intro t
    unfold scoreTick
    split <;> exact ⟨rfl, rfl, rfl, rfl⟩
  have sp2 : ∀ t, (speedTick t).score = t.score ∧
      (speedTick t).frameCount = t.frameCount ∧
      (speedTick t).obstacles = t.obstacles ∧
      (speedTick t).flyingObstacles = t.flyingObstacles := by
    intro t
    unfold speedTick
    split <;> exact ⟨rfl, rfl, rfl, rfl⟩
  have uo : ∀ t, (updateObstacles t).score = t.score +
      ((((t.obstacles.map fun o => { o with x := o.x - t.gameSpeed }).filter
          fun o => o.x + o.width < 0).map obstaclePassPoints)).sum +
      (((t.flyingObstacles.map fun o =>
          { o with
              x := o.x - t.gameSpeed * FLYING_OBSTACLE_SPEED_MULTIPLIER,
              wingFrame := (t.frameCount / BIRD_WING_FLAP_FRAME_INTERVAL) % 2 }).filter
          fun o => o.x + o.width < 0).length) * FLYING_OBSTACLE_POINTS := fun t => rfl
  have hkey : s.gameState = GState.playing →
      (update env s).score =
        s.score + survivalCredit s + passedGroundPoints s + passedFlyingPoints s := by
    intro h
    unfold update
    rw [if_neg (by simp [h])]
    rw [scoreCC, scorePart, scoreDust, scoreSpawn, uo]
    have hfc : (updateMotorcycle (speedTick (scoreTick (updateDayNightCycle env
        (incFrame s))))).frameCount = s.frameCount + 1 := by
      rw [(mot _).2.1, (sp2 _).2.1, (st2 _).1, (dn _).2.1]
      rfl
    have hobs : (updateMotorcycle (speedTick (scoreTick (updateDayNightCycle env
        (incFrame s))))).obstacles = s.obstacles := by
      rw [(mot _).2.2.2.1, (sp2 _).2.2.1, (st2 _).2.2.1, (dn _).2.2.2.1]
      rfl
    have hfly : (updateMotorcycle (speedTick (scoreTick (updateDayNightCycle env
        (incFrame s))))).flyingObstacles = s.flyingObstacles := by
      rw [(mot _).2.2.2.2, (sp2 _).2.2.2, (st2 _).2.2.2, (dn _).2.2.2.2]
      rfl
    have hfc2 : (scoreTick (updateDayNightCycle env (incFrame s))).frameCount =
        s.frameCount + 1 := by
      rw [(st2 _).1, (dn _).2.1]
      rfl
    have hgs2 : (scoreTick (updateDayNightCycle env (incFrame s))).gameSpeed =
        s.gameSpeed := by
      rw [(st2 _).2.1, (dn _).2.2.1]
      rfl
    have hspd : (updateMotorcycle (speedTick (scoreTick (updateDayNightCycle env
        (incFrame s))))).gameSpeed = tickSpeed s := by
      rw [(mot _).2.2.1]
      simp only [speedTick, tickSpeed, hfc2]
      split_ifs <;> simp [hgs2]
    have hsco : (updateMotorcycle (speedTick (scoreTick (updateDayNightCycle env
        (incFrame s))))).score = s.score + survivalCredit s := by
      rw [(mot _).1, (sp2 _).1, st1, (dn _).1, (dn _).2.1]
      unfold survivalCredit
      rfl
    rw [hsco, hobs, hfly, hspd, hfc]
    rfl
  refine ⟨?_, hsc, hgp, hfp, hkey, hnp⟩
  by_cases hp : s.gameState = GState.playing
  · rw [hkey hp]
    linarith
  · rw [hnp hp]

/-- C9 amended: as long as the per-tick advection speed does not exceed
the motorcycle's x position (50 px/tick — below it until frame 26400),
the mount reference never dangles: a tick maps any state whose reference
designates a present obstacle to another such state, because the ridden
vehicle is force-dismounted once its trailing edge passes x=50, strictly
before removal at the left edge. (At higher speeds removal can outrun the
dismount check and the reference dangles for a tick.) -/
theorem C9_no_dangle_bounded_speed (env : TickEnv) (s : GameState)
    (hspd : tickSpeed s ≤ motoX) (h : mountRefOk s) : mountRefOk (update env s) := by
  unfold update
  split
  · exact h
  · have ht3m : (speedTick (scoreTick (updateDayNightCycle env (incFrame s)))).motorcycle =
        s.motorcycle := by
      rw [(scoreTick_motorcycle _).2, (scoreTick_motorcycle _).1,
        (dayNight_fields env _).2.2.2.2]
      rfl
    have ht3o : (speedTick (scoreTick (updateDayNightCycle env (incFrame s)))).obstacles =
        s.obstacles := by
      rw [(counterTick_fields _).2.2.2.1, (counterTick_fields _).1,
        (dayNight_fields env _).2.2.2.1]
      rfl
    have h3 : mountRefOk (speedTick (scoreTick (updateDayNightCycle env (incFrame s)))) := by
      unfold mountRefOk at h ⊢
      simp only [ht3m, ht3o]
      exact h
    have ht4o : (updateMotorcycle (speedTick (scoreTick (updateDayNightCycle env
        (incFrame s))))).obstacles = s.obstacles := by
      obtain ⟨m, la, hm⟩ := updateMotorcycle_shape
        (speedTick (scoreTick (updateDayNightCycle env (incFrame s))))
      rw [hm]
      exact ht3o
    have ht4g : (updateMotorcycle (speedTick (scoreTick (updateDayNightCycle env
        (incFrame s))))).gameSpeed = tickSpeed s := by
      obtain ⟨m, la, hm⟩ := updateMotorcycle_shape
        (speedTick (scoreTick (updateDayNightCycle env (incFrame s))))
      rw [hm]
      show (speedTick (scoreTick (updateDayNightCycle env (incFrame s)))).gameSpeed = _
      exact midTick_gameSpeed env s
    have hmotoChain : (updateParticles (spawnDustParticle env (spawnObstacle env
        (updateObstacles (updateMotorcycle (speedTick (scoreTick (updateDayNightCycle env
          (incFrame s))))))))).motorcycle =
        (updateMotorcycle (speedTick (scoreTick (updateDayNightCycle env
          (incFrame s))))).motorcycle := by
      obtain ⟨ps, hp⟩ := spawnDustParticle_shape env (spawnObstacle env
        (updateObstacles (updateMotorcycle (speedTick (scoreTick (updateDayNightCycle env
          (incFrame s)))))))
      obtain ⟨fo, fi, ff, hf⟩ := spawnFlyingObstacle_shape env (spawnGroundObstacle env
        (updateObstacles (updateMotorcycle (speedTick (scoreTick (updateDayNightCycle env
          (incFrame s)))))))
      obtain ⟨obs, nid, gi, f, hg⟩ := spawnGroundObstacle_shape env
        (updateObstacles (updateMotorcycle (speedTick (scoreTick (updateDayNightCycle env
          (incFrame s))))))
      have hup : ∀ u : GameState, (updateParticles u).motorcycle = u.motorcycle :=
        fun u => rfl
      rw [hup, hp]
      show (spawnObstacle env _).motorcycle = _
      unfold spawnObstacle
      rw [hf, hg]
      rfl
    have hobsChain : (updateParticles (spawnDustParticle env (spawnObstacle env
        (updateObstacles (updateMotorcycle (speedTick (scoreTick (updateDayNightCycle env
          (incFrame s))))))))).obstacles =
        (spawnObstacle env (updateObstacles (updateMotorcycle (speedTick (scoreTick
          (updateDayNightCycle env (incFrame s))))))).obstacles := by
      obtain ⟨ps, hp⟩ := spawnDustParticle_shape env (spawnObstacle env
        (updateObstacles (updateMotorcycle (speedTick (scoreTick (updateDayNightCycle env
          (incFrame s)))))))
      have hup : ∀ u : GameState, (updateParticles u).obstacles = u.obstacles :=
        fun u => rfl
      rw [hup, hp]
    apply mountRefOk_checkCollisions
    unfold mountRefOk
    simp only [hmotoChain, hobsChain]
    rcases updateMotorcycle_mountRef (speedTick (scoreTick (updateDayNightCycle env
      (incFrame s)))) h3 with hnone | ⟨o, hmem, href, hride, hfar⟩
    · rw [hnone]
      trivial
    · rw [href]
      refine ⟨hride, ?_⟩
      have hkeep : { o with x := o.x - (updateMotorcycle (speedTick (scoreTick
          (updateDayNightCycle env (incFrame s))))).gameSpeed } ∈
          (updateObstacles (updateMotorcycle (speedTick (scoreTick (updateDayNightCycle env
            (incFrame s)))))).obstacles := by
        unfold updateObstacles
        dsimp only
        apply List.mem_filter.mpr
        refine ⟨List.mem_map_of_mem _ ?_, ?_⟩
        · obtain ⟨m, la, hm⟩ := updateMotorcycle_shape
            (speedTick (scoreTick (updateDayNightCycle env (incFrame s))))
          rw [hm]
          exact hmem
        · have hok : ¬(o.x - (updateMotorcycle (speedTick (scoreTick (updateDayNightCycle
              env (incFrame s))))).gameSpeed + o.width < 0) := by
            rw [ht4g]
            unfold motoX at hspd hfar
            push_neg at hfar
            linarith
          simpa using hok
      have hspawned := spawnObstacle_keeps env _ _ hkeep
      exact List.mem_map.mpr ⟨_, hspawned, rfl⟩

set_option maxRecDepth 100000 in
/-- C9 counterexample: at advection speed 55.5 (past frame 29700) a
ridden bus whose trailing edge is at x=52 — ahead of the motorcycle, so
no dismount fires — is removed from the collection in the same tick
(52 − 55.5 < 0), leaving the tick's final state still riding with a
mount reference to an obstacle no longer present: no forced dismount
occurs on removal. -/
theorem C9_counterexample :
    lateRide.gameState = GState.playing ∧
    mountRefOk lateRide ∧
    (update env0 lateRide).gameState = GState.playing ∧
    (update env0 lateRide).motorcycle.isRidingVehicle = true ∧
    (update env0 lateRide).motorcycle.ridingVehicle = some 0 ∧
    (update env0 lateRide).obstacles = [] ∧
    ¬ mountRefOk (update env0 lateRide) := by
  have h1 : (update env0 lateRide).motorcycle.ridingVehicle = some 0 := by
    with_unfolding_all decide
  have h2 : (update env0 lateRide).obstacles = [] := by
    with_unfolding_all decide
  refine ⟨by decide, ⟨rfl, by decide⟩, by with_unfolding_all decide,
    by with_unfolding_all decide, h1, h2, fun hmk => ?_⟩
  unfold mountRefOk at hmk
  rw [h1] at hmk
  rw [h2] at hmk
  simp at hmk

/-- Witness for C9's amended preservation on the first tick of a fresh
session (speed 6 ≤ 50). -/
theorem C9_no_dangle_bounded_speed_witness : mountRefOk (update env0 freshStart) :=
  C9_no_dangle_bounded_speed env0 freshStart (by decide) trivial

set_option maxRecDepth 100000 in
/-- C7 counterexample: one tick after starting (via the touch path) with
the duck key held, the motorcycle is not jumping yet its y is not
groundY — ducking lowers y by the pose-height difference, so the claim's
clamp clause fails on a reachable Playing state. -/
theorem C7_counterexample :
    duckReached.gameState = GState.playing ∧
    duckReached.motorcycle.isJumping = false ∧
    duckReached.motorcycle.isDucking = true ∧
    ¬(duckReached.motorcycle.y = motoGroundY) := by
  with_unfolding_all decide

/-- C7 amended: in every reachable vehicle state during play, y equals
groundY whenever the vehicle is neither jumping nor ducking nor riding
(a ducking vehicle instead sits exactly the pose-height difference below
groundY); duck and jump are mutually exclusive; and riding excludes both
duck and jump (so duck input is overridden while riding). The invariant
holds after a session start and is preserved by every tick and every
input handler. -/
theorem C7_pose_invariant :
    (∀ s, vehicleInv (startGame true s)) ∧
    (∀ env s, vehicleInv s → vehicleInv (update env s)) ∧
    (∀ s, vehicleInv s → vehicleInv (performJump s)) ∧
    (∀ landscape code s, vehicleInv s → vehicleInv (handleKeydown landscape code s)) ∧
    (∀ code s, vehicleInv s → vehicleInv (handleKeyup code s)) ∧
    (∀ landscape bottomHalf s, vehicleInv s →
      vehicleInv (handleTouchstart landscape bottomHalf s)) ∧
    (∀ s, vehicleInv s → vehicleInv (handleTouchend s)) ∧
    (∀ landscape s, vehicleInv s → vehicleInv (handleRestartClick landscape s)) := by
  have hstart : ∀ landscape s, vehicleInv s → vehicleInv (startGame landscape s) :=
    fun landscape s h => motoInv_startGame landscape s h
  have hfresh : ∀ s, vehicleInv (startGame true s) := by
    intro s
    unfold vehicleInv startGame
    rw [if_neg (by simp)]
    exact ⟨fun _ => rfl, fun hh => by simp at hh, fun hh => by simp at hh,
      fun hh => ⟨rfl, rfl⟩⟩
  refine ⟨hfresh, fun env s h => motoInv_update env s h,
    fun s h => motoInv_performJump s h, ?_, ?_, ?_, ?_,
    fun landscape s h => hstart landscape s h⟩
  · intro landscape code s h
    unfold handleKeydown
    dsimp only
    repeat' split
    all_goals
      first
        | exact h
        | exact motoInv_performJump _ h
        | exact motoInv_performJump _ (motoInv_startGame _ _ h)
        | exact motoInv_startGame _ _ h
  · intro code s h
    unfold handleKeyup
    split
    · exact h
    · exact h
  · intro landscape bottomHalf s h
    unfold handleTouchstart
    repeat' split
    all_goals
      first
        | exact h
        | exact motoInv_performJump _ h
        | exact motoInv_startGame _ _ h
  · intro s h
    unfold handleTouchend
    split
    · exact h
    · exact h

/-- Witness for C7's amended invariant across the first tick of a fresh
session. -/
theorem C7_pose_invariant_witness : vehicleInv (update env0 freshStart) :=
  C7_pose_invariant.2.1 env0 freshStart (C7_pose_invariant.1 (initialState none))

/-- Witness for C5 on the first tick of a fresh session. -/
theorem C5_score_sources_witness :
    freshStart.gameState = GState.playing ∧
    (update env0 freshStart).score =
      freshStart.score + survivalCredit freshStart + passedGroundPoints freshStart +
        passedFlyingPoints freshStart :=
  ⟨by decide, (C5_score_sources env0 freshStart).2.2.2.2.1 (by decide)⟩

set_option maxRecDepth 300000 in
/-- C6 counterexample: 299 input-free ticks from the fresh session do not
keep the score at 59 with no game-over — the run ends in game-over with
score 47 (the first spawned car reaches the grounded motorcycle). -/
theorem C6_counterexample :
    (runNoInput 299).gameState = GState.gameOver ∧
    (runNoInput 299).score = 47 ∧
    ¬((runNoInput 299).score = 59) := by
  have h100 : runFrom freshStart 100 = checkpoint100 := by with_unfolding_all decide
  have h200 : runFrom checkpoint100 100 = checkpoint200 := by with_unfolding_all decide
  have e299 : runNoInput 299 = runFrom checkpoint200 99 := by
    show runFrom freshStart 299 = _
    rw [show (299 : ℕ) = 100 + 100 + 99 from rfl, runFrom_add, runFrom_add, h100, h200]
  rw [e299]
  with_unfolding_all decide

set_option maxRecDepth 300000 in
/-- C6 amended: with the default spawn schedule the scenario's conclusion
holds only up to the first obstacle: through tick 119 the speed is
unchanged, the score is floor(n/5), and no game-over occurs; but the car
spawned at frame 120 reaches the grounded vehicle, ending the session in
game-over at tick 238 with score 47 (= floor(235/5)), so after 299 ticks
the state is game-over with score 47 — the speed indeed never rises. -/
theorem C6_no_input_run :
    (runNoInput 119).gameState = GState.playing ∧
    (runNoInput 119).score = 23 ∧
    (runNoInput 119).gameSpeed = INITIAL_SPEED ∧
    (runNoInput 237).gameState = GState.playing ∧
    (runNoInput 238).gameState = GState.gameOver ∧
    (runNoInput 238).score = 47 ∧
    (runNoInput 299).gameState = GState.gameOver ∧
    (runNoInput 299).score = 47 ∧
    (runNoInput 299).gameSpeed = INITIAL_SPEED := by
  have h100 : runFrom freshStart 100 = checkpoint100 := by with_unfolding_all decide
  have h200 : runFrom checkpoint100 100 = checkpoint200 := by with_unfolding_all decide
  have e119 : runNoInput 119 = runFrom checkpoint100 19 := by
    show runFrom freshStart 119 = _
    rw [show (119 : ℕ) = 100 + 19 from rfl, runFrom_add, h100]
  have e237 : runNoInput 237 = runFrom checkpoint200 37 := by
    show runFrom freshStart 237 = _
    rw [show (237 : ℕ) = 100 + 100 + 37 from rfl, runFrom_add, runFrom_add, h100, h200]
  have e238 : runNoInput 238 = runFrom checkpoint200 38 := by
    show runFrom freshStart 238 = _
    rw [show (238 : ℕ) = 100 + 100 + 38 from rfl, runFrom_add, runFrom_add, h100, h200]
  have e299 : runNoInput 299 = runFrom checkpoint200 99 := by
    show runFrom freshStart 299 = _
    rw [show (299 : ℕ) = 100 + 100 + 99 from rfl, runFrom_add, runFrom_add, h100, h200]
  rw [e119, e237, e238, e299]
  with_unfolding_all decide

end MotoGame
